import Mathlib

/-!
# Verification of the NES emulator core (AmazingSlab/nes_emulator)

A shallow embedding of the parts of the emulator that the specification
claims talk about: the 6502 CPU interpreter (`src/cpu/mod.rs` and the
decode table in `src/cpu/cpu_instruction.rs`), the PPU register interface
and pixel compositing (`src/ppu/mod.rs`), the FCS savestate parser
(`src/savestate.rs`) and the MMC3 mapper serialization
(`src/mapper/mapper_4.rs`).

Machine integers are modelled as `Nat` with explicit `% 2^w` reductions at
exactly the points where the Rust source performs wrapping arithmetic
(`wrapping_add`, `wrapping_sub`, `wrapping_add_signed`) or where a cast
truncates (`as u8`, `as u16`).  Plain `+` on `u16`/`u8` in the source
(which wraps in release builds) is modelled the same way.  Memory seen
through the bus is an abstract function `Nat → Nat`; the convention that
values are bytes (`< 256`) is carried as a hypothesis where a theorem
needs it.
-/

namespace Nes

/-! ## Byte helpers (src/lib.rs) -/

/-- `low_byte(word: u16) -> u8` — `word as u8`. -/
def lowByte (w : Nat) : Nat := w % 256

/-- `high_byte(word: u16) -> u8` — `(word >> 8) as u8`. -/
def highByte (w : Nat) : Nat := (w >>> 8) % 256

/-- `concat_bytes(low: u8, high: u8) -> u16` — `(high as u16) << 8 | low as u16`. -/
def concatBytes (low high : Nat) : Nat := (high <<< 8) ||| low

/-- `is_bit_set(byte: u8, index: u8) -> bool` — `(byte >> index & 1) != 0`. -/
def isBitSet (byte index : Nat) : Bool := (byte >>> index) &&& 1 ≠ 0

/-! ## CPU status flags (bitflags `Status` in src/cpu/mod.rs)

Bit positions: C = 0, Z = 1, I = 2, D = 3, B = 4, bit 5 unused, V = 6, N = 7.
The register itself is stored as a raw byte (`Status.bits()`), so we model it
as a `Nat`; `from_bits_retain` is the identity on the raw byte. -/

/-- Carry flag, `1 << 0`. -/
def statusC : Nat := 0x01
/-- Zero flag, `1 << 1`. -/
def statusZ : Nat := 0x02
/-- Interrupt disable flag, `1 << 2`. -/
def statusI : Nat := 0x04
/-- Decimal mode flag, `1 << 3`. -/
def statusD : Nat := 0x08
/-- Break flag, `1 << 4`. -/
def statusB : Nat := 0x10
/-- Overflow flag, `1 << 6`. -/
def statusV : Nat := 0x40
/-- Negative flag, `1 << 7`. -/
def statusN : Nat := 0x80

/-- `Status::intersects(flag)` for a one-bit flag. -/
def statusIntersects (status flag : Nat) : Bool := status &&& flag ≠ 0

/-- `Status::set(flag, value)` for a one-bit flag (bitflags insert/remove on a byte). -/
def statusSet (status flag : Nat) (value : Bool) : Nat :=
  if value then status ||| flag else status &&& (255 ^^^ flag)

/-! ## CPU state (struct `Cpu` in src/cpu/mod.rs)

The bus handle, the logging counters (`instruction_number`, `cycle_number`),
the `cycle_wait` counter driving `Cpu::clock` and the `is_instruction_finished`
flag are omitted: no claim mentions them.  All memory traffic the CPU issues
through the bus is modelled by the abstract byte store `mem`. -/

structure Cpu where
  accumulator : Nat
  x_register : Nat
  y_register : Nat
  program_counter : Nat
  stack_pointer : Nat
  status : Nat
  absolute_address : Nat
  operate_on_accumulator : Bool
  branch_will_cross_page : Bool
  address_will_not_cross_page : Bool
  mem : Nat → Nat

namespace Cpu

/-- `Cpu::read` (a bus read). -/
def read (s : Cpu) (addr : Nat) : Nat := s.mem addr

/-- `Cpu::write` (a bus write). -/
def write (s : Cpu) (addr data : Nat) : Cpu :=
  { s with mem := fun a => if a = addr then data else s.mem a }

/-- `Cpu::push` — write at `0x0100 + stack_pointer`, then `stack_pointer.wrapping_sub(1)`. -/
def push (s : Cpu) (value : Nat) : Cpu :=
  let stack_address := 0x0100 + s.stack_pointer
  let s := s.write stack_address value
  { s with stack_pointer := (s.stack_pointer + 255) % 256 }

/-- `Cpu::pull` — `stack_pointer.wrapping_add(1)`, then read at `0x0100 + stack_pointer`. -/
def pull (s : Cpu) : Nat × Cpu :=
  let sp := (s.stack_pointer + 1) % 256
  let s := { s with stack_pointer := sp }
  (s.read (0x0100 + sp), s)

/-- `Cpu::read_u16_absolute` — little-endian 16-bit read at `address`, `address + 1`. -/
def read_u16_absolute (s : Cpu) (address : Nat) : Nat :=
  let low := s.read address
  let high := s.read ((address + 1) % 65536)
  concatBytes low high

/-- `Cpu::read_u16` — 16-bit read at the program counter, which advances by one. -/
def read_u16 (s : Cpu) : Nat × Cpu :=
  let result := s.read_u16_absolute s.program_counter
  (result, { s with program_counter := (s.program_counter + 1) % 65536 })

/-! ### Register helpers -/

inductive Register where
  | A
  | X
  | Y
deriving DecidableEq, Repr

/-- `Cpu::get_register`. -/
def get_register (s : Cpu) (r : Register) : Nat :=
  match r with
  | .A => s.accumulator
  | .X => s.x_register
  | .Y => s.y_register

/-- `Cpu::set_register`. -/
def set_register (s : Cpu) (r : Register) (value : Nat) : Cpu :=
  match r with
  | .A => { s with accumulator := value }
  | .X => { s with x_register := value }
  | .Y => { s with y_register := value }

/-! ### Interrupt entry and stack instructions -/

/-- `Cpu::nmi` — pushes PC high, PC low, then the raw status byte, and loads the
program counter from the NMI vector.  (The `cycle_wait := 8` assignment is
omitted along with the `cycle_wait` field.) -/
def nmi (s : Cpu) : Cpu :=
  let pc_high := highByte s.program_counter
  let pc_low := lowByte s.program_counter
  let s := s.push pc_high
  let s := s.push pc_low
  let s := s.push s.status
  { s with program_counter := s.read_u16_absolute 0xFFFA }

/-- `Cpu::brk` — pushes PC+1 high, PC+1 low, then the status byte with the break
flag forced set, and loads the program counter from the IRQ vector.  Returns the
base cycle cost. -/
def brk (s : Cpu) : Nat × Cpu :=
  let pc_high := highByte ((s.program_counter + 1) % 65536)
  let pc_low := lowByte ((s.program_counter + 1) % 65536)
  let status := s.status ||| statusB
  let s := s.push pc_high
  let s := s.push pc_low
  let s := s.push status
  (7, { s with program_counter := s.read_u16_absolute 0xFFFE })

/-- `Cpu::php` — pushes the status byte with the break flag and bit 5 forced set. -/
def php (s : Cpu) : Nat × Cpu :=
  let status := (s.status ||| statusB) ||| (1 <<< 5)
  (3, s.push status)

/-- `Cpu::plp` — pulls the status byte; `status & !(1 << 5)` then `& !Status::B`
(`!(1 << 5) = 0xDF`, `!Status::B = 0xEF` on a byte). -/
def plp (s : Cpu) : Nat × Cpu :=
  let (status, s) := s.pull
  (4, { s with status := (status &&& 0xDF) &&& 0xEF })

/-- `Cpu::rti` — pulls status, PC low, PC high; clears only the break flag in
the pulled status (`& !Status::B = & 0xEF`). -/
def rti (s : Cpu) : Nat × Cpu :=
  let (status, s) := s.pull
  let (pc_low, s) := s.pull
  let (pc_high, s) := s.pull
  (6, { s with status := status &&& 0xEF,
               program_counter := concatBytes pc_low pc_high })

/-! ### Branches -/

inductive BranchCondition where
  | CarryClear
  | CarrySet
  | Equal
  | Minus
  | NotEqual
  | Plus
  | OverflowClear
  | OverflowSet
deriving DecidableEq, Repr

/-- The condition test inlined at the top of `Cpu::branch`. -/
def conditionMet (c : BranchCondition) (status : Nat) : Bool :=
  match c with
  | .CarrySet => statusIntersects status statusC
  | .CarryClear => !statusIntersects status statusC
  | .Equal => statusIntersects status statusZ
  | .NotEqual => !statusIntersects status statusZ
  | .Minus => statusIntersects status statusN
  | .Plus => !statusIntersects status statusN
  | .OverflowSet => statusIntersects status statusV
  | .OverflowClear => !statusIntersects status statusV

/-- `Cpu::branch` — base cycle cost 1 when the branch is not taken, otherwise the
program counter jumps to the resolved address and the cost is 2 (3 when
`branch_will_cross_page`). -/
def branch (c : BranchCondition) (s : Cpu) : Nat × Cpu :=
  if conditionMet c s.status then
    let s := { s with program_counter := s.absolute_address }
    if s.branch_will_cross_page then (3, s) else (2, s)
  else
    (1, s)

/-- `u8 as i8` — reinterpret a byte as a signed value. -/
def asI8 (b : Nat) : Int := if b < 128 then (b : Int) else (b : Int) - 256

/-- `u16::wrapping_add_signed`. -/
def wrapAddSigned16 (a : Nat) (off : Int) : Nat := (((a : Int) + off).emod 65536).toNat

/-- Addressing mode `Cpu::relative` — resolves the branch target
`pc + offset + 1` and records whether it crosses the page of `pc + 1`
(the address of the next instruction).  Mode cycle cost 1. -/
def relative (s : Cpu) : Nat × Cpu :=
  let offset := asI8 (s.read s.program_counter)
  let address := wrapAddSigned16 s.program_counter offset
  let address := (address + 1) % 65536
  let s := { s with absolute_address := address }
  let s := { s with
    branch_will_cross_page :=
      highByte address ≠ highByte ((s.program_counter + 1) % 65536) }
  (1, s)

/-! ### Absolute / indirect addressing -/

/-- `Cpu::absolute_indexed` — powers absolute,X and absolute,Y.  Sets
`address_will_not_cross_page` when the indexed address stays in the page and
returns 3 cycles on a crossing, 2 otherwise. -/
def absolute_indexed (r : Register) (s : Cpu) : Nat × Cpu :=
  let (address, s) := s.read_u16
  let register := s.get_register r
  let s := { s with absolute_address := (address + register) % 65536 }
  let s := { s with
    address_will_not_cross_page := highByte address = highByte s.absolute_address }
  if !s.address_will_not_cross_page then (3, s) else (2, s)

/-- Addressing mode `Cpu::absolute`. -/
def absolute (s : Cpu) : Nat × Cpu :=
  let (address, s) := s.read_u16
  (2, { s with absolute_address := address })

/-- Addressing mode `Cpu::indirect` — used only by JMP (`0x6C`).  If the pointer
lies at a page boundary (`0x__FF`) the high byte is fetched from `0x__00` of the
same page (`address & !0xFF`), reproducing the 6502 bug. -/
def indirect (s : Cpu) : Nat × Cpu :=
  let (address, s) := s.read_u16
  let low := s.read address
  let high :=
    if lowByte address = 0xFF then s.read (address &&& 0xFF00)
    else s.read ((address + 1) % 65536)
  (4, { s with absolute_address := concatBytes low high })

/-- Addressing mode `Cpu::indirect_indexed` — zero-page pointer fetch with
zero-page wraparound, then indexed by Y; 4 cycles on a page crossing, 3
otherwise, with `address_will_not_cross_page` recorded as in
`absolute_indexed`. -/
def indirect_indexed (s : Cpu) : Nat × Cpu :=
  let address := s.read s.program_counter
  let low := s.read (address % 256)
  let high := s.read ((address + 1) % 256)
  let address := concatBytes low high
  let s := { s with absolute_address := (address + s.y_register) % 65536 }
  let s := { s with
    address_will_not_cross_page := highByte address = highByte s.absolute_address }
  if !s.address_will_not_cross_page then (4, s) else (3, s)

/-! ### Increments and stores -/

/-- `u8::wrapping_add_signed`. -/
def wrapAddSigned8 (a : Nat) (off : Int) : Nat := (((a : Int) + off).emod 256).toNat

/-- `Cpu::increment` — powers DEC, DEX, DEY, INC, INX, INY.  A `none` register
operates on memory at `absolute_address` and costs
`4 + address_will_not_cross_page`: the indexed-absolute page-crossing penalty is
charged unconditionally, so a non-crossing index adds one compensating cycle. -/
def increment (r : Option Register) (value : Int) (s : Cpu) : Nat × Cpu :=
  match r with
  | some r =>
    let data := s.get_register r
    let result := wrapAddSigned8 data value
    let s := s.set_register r result
    let s := { s with status := statusSet s.status statusZ (result = 0) }
    let s := { s with status := statusSet s.status statusN (isBitSet result 7) }
    (2, s)
  | none =>
    let data := s.read s.absolute_address
    let result := wrapAddSigned8 data value
    let s := s.write s.absolute_address result
    let cycles := 4 + (if s.address_will_not_cross_page then 1 else 0)
    let s := { s with status := statusSet s.status statusZ (result = 0) }
    let s := { s with status := statusSet s.status statusN (isBitSet result 7) }
    (cycles, s)

/-- `Cpu::sta` — stores the accumulator; base cost
`2 + address_will_not_cross_page` (the indirect-indexed / indexed-absolute
crossing penalty is charged unconditionally). -/
def sta (s : Cpu) : Nat × Cpu :=
  let s := s.write s.absolute_address s.accumulator
  (2 + (if s.address_will_not_cross_page then 1 else 0), s)

/-- `Cpu::jmp`. -/
def jmp (s : Cpu) : Nat × Cpu :=
  (1, { s with program_counter := s.absolute_address })

/-! ### The `Cpu::execute` skeleton

`Cpu::execute` advances the program counter past the opcode, runs the
addressing mode, advances the program counter again, runs the instruction,
resets `address_will_not_cross_page` and returns the sum of the two cycle
costs.  The two dispatch `match`es are abstracted by the resolved mode and
instruction functions. -/

def executeParts (mode instr : Cpu → Nat × Cpu) (s : Cpu) : Nat × Cpu :=
  let s := { s with program_counter := (s.program_counter + 1) % 65536 }
  let (addr_mode_cycles, s) := mode s
  let s := { s with program_counter := (s.program_counter + 1) % 65536 }
  let (instruction_cycles, s) := instr s
  let s := { s with address_will_not_cross_page := false }
  (addr_mode_cycles + instruction_cycles, s)

end Cpu

/-! ## Instruction decoding (src/cpu/cpu_instruction.rs) -/

inductive Instruction where
  | Lda | Ldx | Ldy | Sta | Stx | Sty | Tax | Tay | Txa | Tya | Tsx | Txs
  | Pha | Php | Pla | Plp | And | Eor | Ora | Bit | Adc | Sbc | Cmp | Cpx
  | Cpy | Inc | Inx | Iny | Dec | Dex | Dey | Asl | Lsr | Rol | Ror | Jmp
  | Jsr | Rts | Bcc | Bcs | Beq | Bmi | Bne | Bpl | Bvc | Bvs | Clc | Cld
  | Cli | Clv | Sec | Sed | Sei | Brk | Nop | Rti
  | Dcp | Isc | Lax | Rla | Sax | Slo | Sre | Usbc
deriving DecidableEq, Repr

inductive AddressingMode where
  | Implicit
  | Accumulator
  | Immediate
  | ZeroPage
  | ZeroPageX
  | ZeroPageY
  | Relative
  | Absolute
  | AbsoluteX
  | AbsoluteY
  | Indirect
  | IndexedIndirect
  | IndirectIndexed
deriving DecidableEq, Repr

structure CpuInstruction where
  instruction : Instruction
  addr_mode : AddressingMode
deriving DecidableEq, Repr

/-- `CpuInstruction::decode` — the 256-entry opcode table.  Opcodes the source
leaves to `unimplemented!` are `none`. -/
def decode (opcode : Nat) : Option CpuInstruction :=
  match opcode with
  | 0x00 => some ⟨.Brk, .Implicit⟩
  | 0x01 => some ⟨.Ora, .IndexedIndirect⟩
  | 0x05 => some ⟨.Ora, .ZeroPage⟩
  | 0x06 => some ⟨.Asl, .ZeroPage⟩
  | 0x08 => some ⟨.Php, .Implicit⟩
  | 0x09 => some ⟨.Ora, .Immediate⟩
  | 0x0A => some ⟨.Asl, .Accumulator⟩
  | 0x0D => some ⟨.Ora, .Absolute⟩
  | 0x0E => some ⟨.Asl, .Absolute⟩
  | 0x10 => some ⟨.Bpl, .Relative⟩
  | 0x11 => some ⟨.Ora, .IndirectIndexed⟩
  | 0x15 => some ⟨.Ora, .ZeroPageX⟩
  | 0x16 => some ⟨.Asl, .ZeroPageX⟩
  | 0x18 => some ⟨.Clc, .Implicit⟩
  | 0x19 => some ⟨.Ora, .AbsoluteY⟩
  | 0x1D => some ⟨.Ora, .AbsoluteX⟩
  | 0x1E => some ⟨.Asl, .AbsoluteX⟩
  | 0x20 => some ⟨.Jsr, .Absolute⟩
  | 0x21 => some ⟨.And, .IndexedIndirect⟩
  | 0x24 => some ⟨.Bit, .ZeroPage⟩
  | 0x25 => some ⟨.And, .ZeroPage⟩
  | 0x26 => some ⟨.Rol, .ZeroPage⟩
  | 0x28 => some ⟨.Plp, .Implicit⟩
  | 0x29 => some ⟨.And, .Immediate⟩
  | 0x2A => some ⟨.Rol, .Accumulator⟩
  | 0x2C => some ⟨.Bit, .Absolute⟩
  | 0x2D => some ⟨.And, .Absolute⟩
  | 0x2E => some ⟨.Rol, .Absolute⟩
  | 0x30 => some ⟨.Bmi, .Relative⟩
  | 0x31 => some ⟨.And, .IndirectIndexed⟩
  | 0x35 => some ⟨.And, .ZeroPageX⟩
  | 0x36 => some ⟨.Rol, .ZeroPageX⟩
  | 0x38 => some ⟨.Sec, .Implicit⟩
  | 0x39 => some ⟨.And, .AbsoluteY⟩
  | 0x3D => some ⟨.And, .AbsoluteX⟩
  | 0x3E => some ⟨.Rol, .AbsoluteX⟩
  | 0x40 => some ⟨.Rti, .Implicit⟩
  | 0x41 => some ⟨.Eor, .IndexedIndirect⟩
  | 0x45 => some ⟨.Eor, .ZeroPage⟩
  | 0x46 => some ⟨.Lsr, .ZeroPage⟩
  | 0x48 => some ⟨.Pha, .Implicit⟩
  | 0x49 => some ⟨.Eor, .Immediate⟩
  | 0x4A => some ⟨.Lsr, .Accumulator⟩
  | 0x4C => some ⟨.Jmp, .Absolute⟩
  | 0x4D => some ⟨.Eor, .Absolute⟩
  | 0x4E => some ⟨.Lsr, .Absolute⟩
  | 0x50 => some ⟨.Bvc, .Relative⟩
  | 0x51 => some ⟨.Eor, .IndirectIndexed⟩
  | 0x55 => some ⟨.Eor, .ZeroPageX⟩
  | 0x56 => some ⟨.Lsr, .ZeroPageX⟩
  | 0x58 => some ⟨.Cli, .Implicit⟩
  | 0x59 => some ⟨.Eor, .AbsoluteY⟩
  | 0x5D => some ⟨.Eor, .AbsoluteX⟩
  | 0x5E => some ⟨.Lsr, .AbsoluteX⟩
  | 0x60 => some ⟨.Rts, .Implicit⟩
  | 0x61 => some ⟨.Adc, .IndexedIndirect⟩
  | 0x65 => some ⟨.Adc, .ZeroPage⟩
  | 0x66 => some ⟨.Ror, .ZeroPage⟩
  | 0x68 => some ⟨.Pla, .Implicit⟩
  | 0x69 => some ⟨.Adc, .Immediate⟩
  | 0x6A => some ⟨.Ror, .Accumulator⟩
  | 0x6C => some ⟨.Jmp, .Indirect⟩
  | 0x6D => some ⟨.Adc, .Absolute⟩
  | 0x6E => some ⟨.Ror, .Absolute⟩
  | 0x70 => some ⟨.Bvs, .Relative⟩
  | 0x71 => some ⟨.Adc, .IndirectIndexed⟩
  | 0x75 => some ⟨.Adc, .ZeroPageX⟩
  | 0x76 => some ⟨.Ror, .ZeroPageX⟩
  | 0x78 => some ⟨.Sei, .Implicit⟩
  | 0x79 => some ⟨.Adc, .AbsoluteY⟩
  | 0x7D => some ⟨.Adc, .AbsoluteX⟩
  | 0x7E => some ⟨.Ror, .AbsoluteX⟩
  | 0x81 => some ⟨.Sta, .IndexedIndirect⟩
  | 0x84 => some ⟨.Sty, .ZeroPage⟩
  | 0x85 => some ⟨.Sta, .ZeroPage⟩
  | 0x86 => some ⟨.Stx, .ZeroPage⟩
  | 0x88 => some ⟨.Dey, .Implicit⟩
  | 0x8A => some ⟨.Txa, .Implicit⟩
  | 0x8C => some ⟨.Sty, .Absolute⟩
  | 0x8D => some ⟨.Sta, .Absolute⟩
  | 0x8E => some ⟨.Stx, .Absolute⟩
  | 0x90 => some ⟨.Bcc, .Relative⟩
  | 0x91 => some ⟨.Sta, .IndirectIndexed⟩
  | 0x94 => some ⟨.Sty, .ZeroPageX⟩
  | 0x95 => some ⟨.Sta, .ZeroPageX⟩
  | 0x96 => some ⟨.Stx, .ZeroPageY⟩
  | 0x98 => some ⟨.Tya, .Implicit⟩
  | 0x99 => some ⟨.Sta, .AbsoluteY⟩
  | 0x9A => some ⟨.Txs, .Implicit⟩
  | 0x9D => some ⟨.Sta, .AbsoluteX⟩
  | 0xA0 => some ⟨.Ldy, .Immediate⟩
  | 0xA1 => some ⟨.Lda, .IndexedIndirect⟩
  | 0xA2 => some ⟨.Ldx, .Immediate⟩
  | 0xA4 => some ⟨.Ldy, .ZeroPage⟩
  | 0xA5 => some ⟨.Lda, .ZeroPage⟩
  | 0xA6 => some ⟨.Ldx, .ZeroPage⟩
  | 0xA8 => some ⟨.Tay, .Implicit⟩
  | 0xA9 => some ⟨.Lda, .Immediate⟩
  | 0xAA => some ⟨.Tax, .Implicit⟩
  | 0xAC => some ⟨.Ldy, .Absolute⟩
  | 0xAD => some ⟨.Lda, .Absolute⟩
  | 0xAE => some ⟨.Ldx, .Absolute⟩
  | 0xB0 => some ⟨.Bcs, .Relative⟩
  | 0xB1 => some ⟨.Lda, .IndirectIndexed⟩
  | 0xB4 => some ⟨.Ldy, .ZeroPageX⟩
  | 0xB5 => some ⟨.Lda, .ZeroPageX⟩
  | 0xB6 => some ⟨.Ldx, .ZeroPageY⟩
  | 0xB8 => some ⟨.Clv, .Implicit⟩
  | 0xB9 => some ⟨.Lda, .AbsoluteY⟩
  | 0xBA => some ⟨.Tsx, .Implicit⟩
  | 0xBC => some ⟨.Ldy, .AbsoluteX⟩
  | 0xBD => some ⟨.Lda, .AbsoluteX⟩
  | 0xBE => some ⟨.Ldx, .AbsoluteY⟩
  | 0xC0 => some ⟨.Cpy, .Immediate⟩
  | 0xC1 => some ⟨.Cmp, .IndexedIndirect⟩
  | 0xC4 => some ⟨.Cpy, .ZeroPage⟩
  | 0xC5 => some ⟨.Cmp, .ZeroPage⟩
  | 0xC6 => some ⟨.Dec, .ZeroPage⟩
  | 0xC8 => some ⟨.Iny, .Implicit⟩
  | 0xC9 => some ⟨.Cmp, .Immediate⟩
  | 0xCA => some ⟨.Dex, .Implicit⟩
  | 0xCC => some ⟨.Cpy, .Absolute⟩
  | 0xCD => some ⟨.Cmp, .Absolute⟩
  | 0xCE => some ⟨.Dec, .Absolute⟩
  | 0xD0 => some ⟨.Bne, .Relative⟩
  | 0xD1 => some ⟨.Cmp, .IndirectIndexed⟩
  | 0xD5 => some ⟨.Cmp, .ZeroPageX⟩
  | 0xD6 => some ⟨.Dec, .ZeroPageX⟩
  | 0xD8 => some ⟨.Cld, .Implicit⟩
  | 0xD9 => some ⟨.Cmp, .AbsoluteY⟩
  | 0xDD => some ⟨.Cmp, .AbsoluteX⟩
  | 0xDE => some ⟨.Dec, .AbsoluteX⟩
  | 0xE0 => some ⟨.Cpx, .Immediate⟩
  | 0xE1 => some ⟨.Sbc, .IndexedIndirect⟩
  | 0xE4 => some ⟨.Cpx, .ZeroPage⟩
  | 0xE5 => some ⟨.Sbc, .ZeroPage⟩
  | 0xE6 => some ⟨.Inc, .ZeroPage⟩
  | 0xE8 => some ⟨.Inx, .Implicit⟩
  | 0xE9 => some ⟨.Sbc, .Immediate⟩
  | 0xEA => some ⟨.Nop, .Implicit⟩
  | 0xEC => some ⟨.Cpx, .Absolute⟩
  | 0xED => some ⟨.Sbc, .Absolute⟩
  | 0xEE => some ⟨.Inc, .Absolute⟩
  | 0xF0 => some ⟨.Beq, .Relative⟩
  | 0xF1 => some ⟨.Sbc, .IndirectIndexed⟩
  | 0xF5 => some ⟨.Sbc, .ZeroPageX⟩
  | 0xF6 => some ⟨.Inc, .ZeroPageX⟩
  | 0xF8 => some ⟨.Sed, .Implicit⟩
  | 0xF9 => some ⟨.Sbc, .AbsoluteY⟩
  | 0xFD => some ⟨.Sbc, .AbsoluteX⟩
  | 0xFE => some ⟨.Inc, .AbsoluteX⟩
  | 0x04 => some ⟨.Nop, .ZeroPage⟩
  | 0x0C => some ⟨.Nop, .Absolute⟩
  | 0x14 => some ⟨.Nop, .ZeroPageX⟩
  | 0x1A => some ⟨.Nop, .Implicit⟩
  | 0x1C => some ⟨.Nop, .AbsoluteX⟩
  | 0x34 => some ⟨.Nop, .ZeroPageX⟩
  | 0x3A => some ⟨.Nop, .Implicit⟩
  | 0x3C => some ⟨.Nop, .AbsoluteX⟩
  | 0x44 => some ⟨.Nop, .ZeroPage⟩
  | 0x54 => some ⟨.Nop, .ZeroPageX⟩
  | 0x5A => some ⟨.Nop, .Implicit⟩
  | 0x5C => some ⟨.Nop, .AbsoluteX⟩
  | 0x64 => some ⟨.Nop, .ZeroPage⟩
  | 0x74 => some ⟨.Nop, .ZeroPageX⟩
  | 0x7A => some ⟨.Nop, .Implicit⟩
  | 0x7C => some ⟨.Nop, .AbsoluteX⟩
  | 0x80 => some ⟨.Nop, .Immediate⟩
  | 0x82 => some ⟨.Nop, .Immediate⟩
  | 0x83 => some ⟨.Sax, .IndexedIndirect⟩
  | 0x87 => some ⟨.Sax, .ZeroPage⟩
  | 0x89 => some ⟨.Nop, .Immediate⟩
  | 0x8F => some ⟨.Sax, .Absolute⟩
  | 0x97 => some ⟨.Sax, .ZeroPageY⟩
  | 0xA3 => some ⟨.Lax, .IndexedIndirect⟩
  | 0xA7 => some ⟨.Lax, .ZeroPage⟩
  | 0xAF => some ⟨.Lax, .Absolute⟩
  | 0xB3 => some ⟨.Lax, .IndirectIndexed⟩
  | 0xB7 => some ⟨.Lax, .ZeroPageY⟩
  | 0xBF => some ⟨.Lax, .AbsoluteY⟩
  | 0xC2 => some ⟨.Nop, .Immediate⟩
  | 0xD4 => some ⟨.Nop, .ZeroPageX⟩
  | 0xDA => some ⟨.Nop, .Implicit⟩
  | 0xDC => some ⟨.Nop, .AbsoluteX⟩
  | 0xE2 => some ⟨.Nop, .Immediate⟩
  | 0xEB => some ⟨.Usbc, .Immediate⟩
  | 0xF4 => some ⟨.Nop, .ZeroPageX⟩
  | 0xFA => some ⟨.Nop, .Implicit⟩
  | 0xFC => some ⟨.Nop, .AbsoluteX⟩
  | _ => none

/-! ## PPU (src/ppu/mod.rs)

The nametable mirroring modes come from the `Mirroring` enum in
src/mapper/mod.rs. -/

inductive Mirroring where
  | Horizontal
  | Vertical
  | SingleScreen
  | SingleScreenUpper
deriving DecidableEq, Repr

/-- The PPU state (struct `Ppu`).  The framebuffers, the `cycle`/`scanline`
counters, the background fetch staging bytes, the secondary OAM, the temporary
VRAM address, the fine scroll copy machinery and the frame/NMI flags are
omitted: the claims below concern only the register interface and the per-cycle
pixel compositing, which read and write the fields kept here.  The packed
bit-field registers (`PpuControl`, `PpuStatus`) and the `VramAddress` are
modelled by their raw integer value (`.0`); `chr` stands for
`cartridge.ppu_read`/`ppu_write` CHR storage. -/
structure Ppu where
  control : Nat
  mask : Nat
  status : Nat
  nametables : Nat → Nat
  palette_ram : Nat → Nat
  oam : Nat → Nat
  oam_addr : Nat
  ppu_data_buffer : Nat
  vram_addr : Nat
  addr_latch : Nat
  fine_x_scroll : Nat
  pattern_table_shift_low : Nat
  pattern_table_shift_high : Nat
  palette_attrib_shift_low : Nat
  palette_attrib_shift_high : Nat
  sprite_x_pos : Nat → Nat
  sprite_pattern_shift_low : Nat → Nat
  sprite_pattern_shift_high : Nat → Nat
  sprite_attrib : Nat → Nat
  chr : Nat → Nat
  mirroring : Mirroring

namespace Ppu

/-- `PpuControl::address_increment()` — bit 2 of the control register. -/
def controlAddressIncrement (control : Nat) : Nat := (control >>> 2) &&& 1

/-- `Ppu::ppu_read` — CHR space below `0x2000`, mirrored nametables up to
`0x3EFF`, palette RAM with its hard-wired mirrors up to `0x3FFF`, 0 above.
The source `match` on the mirroring mode (ppu/mod.rs 634-645) has arms for
`Horizontal`, `Vertical` and `SingleScreen` only; `SingleScreenUpper` (used by
mapper 1) is given the `SingleScreen` translation here, which no claim
depends on. -/
def ppuRead (s : Ppu) (addr : Nat) : Nat :=
  if addr ≤ 0x1FFF then s.chr addr
  else if addr ≤ 0x3EFF then
    match s.mirroring with
    | .Horizontal =>
      let a := addr &&& 0x0FFF
      if a < 0x0800 then s.nametables (a &&& 0x03FF)
      else s.nametables ((a &&& 0x03FF) + 0x0400)
    | .Vertical => s.nametables (addr &&& 0x07FF)
    | .SingleScreen => s.nametables (addr &&& 0x03FF)
    | .SingleScreenUpper => s.nametables (addr &&& 0x03FF)
  else if addr ≤ 0x3FFF then
    let a := addr &&& 0x1F
    let a :=
      if a = 0x10 then 0x00
      else if a = 0x14 then 0x04
      else if a = 0x18 then 0x08
      else if a = 0x1C then 0x0C
      else a
    s.palette_ram a
  else 0

/-- `Ppu::sample_palette_ram` — reads `0x3F00 + ((palette << 2) + index)`,
with the `u8` arithmetic of the Rust source reduced mod 256. -/
def samplePaletteRam (s : Ppu) (palette index : Nat) : Nat :=
  ppuRead s (0x3F00 + ((palette <<< 2) % 256 + index) % 256)

/-- The sprite-pixel selection loop of `Ppu::clock` (ppu/mod.rs 400-417):
walk the slots in index order, skip slots whose X counter has not reached
zero, and take the first slot whose 2-bit pattern (from bit 7 of the two shift
registers) is opaque.  Returns `(sprite_pattern, sprite_palette,
sprite_attrib)`, all zero when no slot qualifies. -/
def spriteSearch (s : Ppu) : List Nat → Nat × Nat × Nat
  | [] => (0, 0, 0)
  | i :: rest =>
    if s.sprite_x_pos i ≠ 0 then spriteSearch s rest
    else
      let pattern_low := if s.sprite_pattern_shift_low i &&& 0x80 > 0 then 1 else 0
      let pattern_high := if s.sprite_pattern_shift_high i &&& 0x80 > 0 then 1 else 0
      let pattern := (pattern_high <<< 1) ||| pattern_low
      if pattern ≠ 0 then
        let attrib := s.sprite_attrib i
        (pattern, attrib &&& 0x03, attrib)
      else spriteSearch s rest

/-- The slot indices `0..8` of the sprite loop. -/
def spriteSlots : List Nat := [0, 1, 2, 3, 4, 5, 6, 7]

/-- The per-cycle pixel compositing tail of `Ppu::clock` (ppu/mod.rs 391-437):
extract the background pixel from the shift registers gated by `fine_x_scroll`,
select the sprite pixel, then resolve priority.  Returns the palette color
index and the updated PPU state (`set_sprite_zero_hit(true)` sets bit 6 of the
status register in the both-opaque branch). -/
def clockPixel (s : Ppu) : Nat × Ppu :=
  let bit_mux := 0x8000 >>> s.fine_x_scroll
  let background_pattern_low := if s.pattern_table_shift_low &&& bit_mux > 0 then 1 else 0
  let background_pattern_high := if s.pattern_table_shift_high &&& bit_mux > 0 then 1 else 0
  let background_attrib_low := if s.palette_attrib_shift_low &&& bit_mux > 0 then 1 else 0
  let background_attrib_high := if s.palette_attrib_shift_high &&& bit_mux > 0 then 1 else 0
  let background_palette := (background_attrib_high <<< 1) ||| background_attrib_low
  let background_index := (background_pattern_high <<< 1) ||| background_pattern_low
  let sel := spriteSearch s spriteSlots
  let sprite_pattern := sel.1
  let sprite_palette := sel.2.1
  let sprite_attrib := sel.2.2
  if background_index = 0 ∧ sprite_pattern ≠ 0 then
    (samplePaletteRam s (sprite_palette + 4) sprite_pattern, s)
  else if background_index ≠ 0 ∧ sprite_pattern = 0 then
    (samplePaletteRam s background_palette background_index, s)
  else if background_index ≠ 0 ∧ sprite_pattern ≠ 0 then
    let s2 := { s with status := s.status ||| 0x40 }
    if sprite_attrib &&& (1 <<< 5) = 0 then
      (samplePaletteRam s (sprite_palette + 4) sprite_pattern, s2)
    else
      (samplePaletteRam s background_palette background_index, s2)
  else if background_index = 0 ∧ sprite_palette = 0 then
    (samplePaletteRam s 0 0, s)
  else (0, s)

/-- `Ppu::cpu_read` — the CPU-visible register file.  Reading `PPUSTATUS`
(index 2) returns the three status bits over stale bus data, clears the vblank
flag (bit 7) and resets the write-toggle latch; reading `PPUDATA` (index 7)
returns the one-read-delayed buffer except for palette addresses, refills the
buffer from the current VRAM address and advances it by 1 or 32 according to
the control register's address-increment bit. -/
def cpuRead (s : Ppu) (addr : Nat) : Nat × Ppu :=
  match addr with
  | 0x00 => (0, s)
  | 0x01 => (0, s)
  | 0x02 =>
    let data := (s.status &&& 0xE0) ||| (s.ppu_data_buffer &&& 0x1F)
    (data, { s with status := s.status &&& 0x7F, addr_latch := 0 })
  | 0x03 => (0, s)
  | 0x04 => (s.oam s.oam_addr, s)
  | 0x05 => (0, s)
  | 0x06 => (0, s)
  | 0x07 =>
    let data := s.ppu_data_buffer
    let buffer := ppuRead s s.vram_addr
    let data := if 0x3F00 ≤ s.vram_addr then buffer else data
    let increment := if controlAddressIncrement s.control = 0 then 1 else 32
    (data, { s with ppu_data_buffer := buffer,
                    vram_addr := (s.vram_addr + increment) % 65536 })
  | _ => (0, s)

end Ppu

/-! ## Savestate parsing (src/savestate.rs)

Rust functions returning `Result<_, String>` are modelled with
`Except ParseError`; the error constructors correspond one-for-one to the
error message strings of the source.  `PResult` additionally distinguishes a
`panicked` outcome, used exactly where the source performs a slice operation
(`split_at`) that panics when the slice is too short.  Byte strings are
`List Nat`; a Rust `&str` is represented by its UTF-8 byte list. -/

inductive ParseError where
  /-- "not a savestate" -/
  | notASavestate
  /-- "header ended unexpectedly" -/
  | headerEndedUnexpectedly
  /-- "savestate is compressed" -/
  | compressedSavestate
  /-- "file size doesn't match header" -/
  | fileSizeMismatch
  /-- "section header ended unexpectedly" -/
  | sectionHeaderEndedUnexpectedly
  /-- "chunk header ended unexpectedly" -/
  | chunkHeaderEndedUnexpectedly
  /-- "chunk length doesn't match header" -/
  | chunkLengthMismatch
  /-- "invalid chunk description" -/
  | invalidChunkDescription
  /-- "invalid section size" -/
  | invalidSectionSize
  /-- "missing cpu state" -/
  | missingCpuState
  /-- "missing ppu state" -/
  | missingPpuState
  /-- "missing sound state" -/
  | missingApuState
  /-- "missing mapper state" -/
  | missingMapperState
deriving DecidableEq, Repr

/-- The outcome of a Rust call that can succeed, return an error, or panic. -/
inductive PResult (α : Type) where
  | ok : α → PResult α
  | err : ParseError → PResult α
  | panicked : PResult α

/-- `uN::from_le_bytes` on a byte list. -/
def leToNat : List Nat → Nat
  | [] => 0
  | b :: rest => b + 256 * leToNat rest

/-- `(x as u32).to_le_bytes()`. -/
def u32ToLe (n : Nat) : List Nat :=
  [n % 256, n / 256 % 256, n / 65536 % 256, n / 16777216 % 256]

/-- `.trim_end_matches('\0')`. -/
def trimTrailingZeros (l : List Nat) : List Nat :=
  (l.reverse.dropWhile (· = 0)).reverse

/-- A UTF-8 continuation byte (`0x80..=0xBF`). -/
def isUtf8Cont (b : Nat) : Bool := 0x80 ≤ b ∧ b ≤ 0xBF

/-- Validity of a byte list as UTF-8, the success condition of
`std::str::from_utf8` (RFC 3629: no overlong encodings, no surrogates, max
`U+10FFFF`). -/
def isValidUtf8 : List Nat → Bool
  | [] => true
  | b :: rest =>
    if b < 0x80 then isValidUtf8 rest
    else if 0xC2 ≤ b ∧ b ≤ 0xDF then
      match rest with
      | c1 :: rest1 => isUtf8Cont c1 && isValidUtf8 rest1
      | [] => false
    else if b = 0xE0 then
      match rest with
      | c1 :: c2 :: rest2 =>
        (0xA0 ≤ c1 ∧ c1 ≤ 0xBF : Bool) && isUtf8Cont c2 && isValidUtf8 rest2
      | _ => false
    else if (0xE1 ≤ b ∧ b ≤ 0xEC) ∨ b = 0xEE ∨ b = 0xEF then
      match rest with
      | c1 :: c2 :: rest2 => isUtf8Cont c1 && isUtf8Cont c2 && isValidUtf8 rest2
      | _ => false
    else if b = 0xED then
      match rest with
      | c1 :: c2 :: rest2 =>
        (0x80 ≤ c1 ∧ c1 ≤ 0x9F : Bool) && isUtf8Cont c2 && isValidUtf8 rest2
      | _ => false
    else if b = 0xF0 then
      match rest with
      | c1 :: c2 :: c3 :: rest3 =>
        (0x90 ≤ c1 ∧ c1 ≤ 0xBF : Bool) && isUtf8Cont c2 && isUtf8Cont c3 &&
          isValidUtf8 rest3
      | _ => false
    else if 0xF1 ≤ b ∧ b ≤ 0xF3 then
      match rest with
      | c1 :: c2 :: c3 :: rest3 =>
        isUtf8Cont c1 && isUtf8Cont c2 && isUtf8Cont c3 && isValidUtf8 rest3
      | _ => false
    else if b = 0xF4 then
      match rest with
      | c1 :: c2 :: c3 :: rest3 =>
        (0x80 ≤ c1 ∧ c1 ≤ 0x8F : Bool) && isUtf8Cont c2 && isUtf8Cont c3 &&
          isValidUtf8 rest3
      | _ => false
    else false


/-! ### `deserialize` (the `FromBytes` instances of savestate.rs) -/

/-- `deserialize::<u8>` — `Err("invalid section size")` unless exactly one
byte. -/
def deserializeU8 (bytes : List Nat) : Except ParseError Nat :=
  if bytes.length = 1 then .ok (leToNat bytes) else .error .invalidSectionSize

/-- `deserialize::<u16>`. -/
def deserializeU16 (bytes : List Nat) : Except ParseError Nat :=
  if bytes.length = 2 then .ok (leToNat bytes) else .error .invalidSectionSize

/-- `deserialize::<u32>`. -/
def deserializeU32 (bytes : List Nat) : Except ParseError Nat :=
  if bytes.length = 4 then .ok (leToNat bytes) else .error .invalidSectionSize

/-- `deserialize::<bool>` — one byte, nonzero means `true`. -/
def deserializeBool (bytes : List Nat) : Except ParseError Bool :=
  if bytes.length = 1 then .ok (leToNat bytes ≠ 0) else .error .invalidSectionSize

/-- `deserialize` for a fixed-size byte array (`[u8; N]` / `Box<[u8; N]>`). -/
def deserializeBytes (n : Nat) (bytes : List Nat) : Except ParseError (List Nat) :=
  if bytes.length = n then .ok bytes else .error .invalidSectionSize

/-- `deserialize::<[bool; N]>` — every byte mapped through `≠ 0`. -/
def deserializeBools (n : Nat) (bytes : List Nat) : Except ParseError (List Bool) :=
  if bytes.length = n then .ok (bytes.map (fun b => b ≠ 0)) else .error .invalidSectionSize

/-- `deserialize::<Vec<u8>>` — always succeeds with the raw bytes. -/
def deserializeVec (bytes : List Nat) : Except ParseError (List Nat) :=
  .ok bytes

/-- `Subchunk::new` — parses a byte stream into `(description, data)` sections.
Each section is an 8-byte header (4-byte tag, `u32` little-endian size)
followed by `size` data bytes; the tag must be valid UTF-8 and is trimmed of
trailing NUL bytes.  Truncated headers and short data are recoverable
errors. -/
def subchunkNew (bytes : List Nat) : Except ParseError (List (List Nat × List Nat)) :=
  if bytes.isEmpty then .ok []
  else if _h8 : bytes.length < 8 then .error .chunkHeaderEndedUnexpectedly
  else
    let header := bytes.take 8
    let rest := bytes.drop 8
    let size := leToNat (header.drop 4)
    if _hsz : rest.length < size then .error .chunkLengthMismatch
    else
      let sec := rest.take size
      let rest2 := rest.drop size
      if isValidUtf8 (header.take 4) then
        let description := trimTrailingZeros (header.take 4)
        match subchunkNew rest2 with
        | .ok sections => .ok ((description, sec) :: sections)
        | .error e => .error e
      else .error .invalidChunkDescription
termination_by bytes.length
decreasing_by
  simp only [List.length_drop]
  omega

/-- `serialize` — pads/truncates the description to 4 bytes
(`format!("{description:\0<4}")`), then emits the `u32` little-endian data
length and the data. -/
def padTag4 (description : List Nat) : List Nat :=
  (description ++ List.replicate (4 - description.length) 0).take 4

def serialize (value : List Nat) (description : List Nat) : List Nat :=
  padTag4 description ++ u32ToLe value.length ++ value

/-- The ASCII bytes of the tag `FCS`. -/
def tagFCS : List Nat := [0x46, 0x43, 0x53]

/-- The ASCII bytes of the tag `PC`. -/
def tagPC : List Nat := [0x50, 0x43]

/-- The ASCII bytes of the tag `A`. -/
def tagA : List Nat := [0x41]

/-- The ASCII bytes of the tag `P`. -/
def tagP : List Nat := [0x50]

/-- The ASCII bytes of the tag `X`. -/
def tagX : List Nat := [0x58]

/-- The ASCII bytes of the tag `Y`. -/
def tagY : List Nat := [0x59]

/-- The ASCII bytes of the tag `S`. -/
def tagS : List Nat := [0x53]

/-- The ASCII bytes of the tag `DB`. -/
def tagDB : List Nat := [0x44, 0x42]

/-- The ASCII bytes of the tag `RAM`. -/
def tagRAM : List Nat := [0x52, 0x41, 0x4D]

/-- The ASCII bytes of the tag `NTAR`. -/
def tagNTAR : List Nat := [0x4E, 0x54, 0x41, 0x52]

/-- The ASCII bytes of the tag `PRAM`. -/
def tagPRAM : List Nat := [0x50, 0x52, 0x41, 0x4D]

/-- The ASCII bytes of the tag `SPRA`. -/
def tagSPRA : List Nat := [0x53, 0x50, 0x52, 0x41]

/-- The ASCII bytes of the tag `PPUR`. -/
def tagPPUR : List Nat := [0x50, 0x50, 0x55, 0x52]

/-- The ASCII bytes of the tag `XOFF`. -/
def tagXOFF : List Nat := [0x58, 0x4F, 0x46, 0x46]

/-- The ASCII bytes of the tag `VTGL`. -/
def tagVTGL : List Nat := [0x56, 0x54, 0x47, 0x4C]

/-- The ASCII bytes of the tag `RADD`. -/
def tagRADD : List Nat := [0x52, 0x41, 0x44, 0x44]

/-- The ASCII bytes of the tag `TADD`. -/
def tagTADD : List Nat := [0x54, 0x41, 0x44, 0x44]

/-- The ASCII bytes of the tag `VBUF`. -/
def tagVBUF : List Nat := [0x56, 0x42, 0x55, 0x46]

/-- The ASCII bytes of the tag `PGEN`. -/
def tagPGEN : List Nat := [0x50, 0x47, 0x45, 0x4E]

/-- The ASCII bytes of the tag `FHCN`. -/
def tagFHCN : List Nat := [0x46, 0x48, 0x43, 0x4E]

/-- The ASCII bytes of the tag `FCNT`. -/
def tagFCNT : List Nat := [0x46, 0x43, 0x4E, 0x54]

/-- The ASCII bytes of the tag `PSG`. -/
def tagPSG : List Nat := [0x50, 0x53, 0x47]

/-- The ASCII bytes of the tag `ENCH`. -/
def tagENCH : List Nat := [0x45, 0x4E, 0x43, 0x48]

/-- The ASCII bytes of the tag `IQFM`. -/
def tagIQFM : List Nat := [0x49, 0x51, 0x46, 0x4D]

/-- The ASCII bytes of the tag `NREG`. -/
def tagNREG : List Nat := [0x4E, 0x52, 0x45, 0x47]

/-- The ASCII bytes of the tag `TRIM`. -/
def tagTRIM : List Nat := [0x54, 0x52, 0x49, 0x4D]

/-- The ASCII bytes of the tag `TRIC`. -/
def tagTRIC : List Nat := [0x54, 0x52, 0x49, 0x43]

/-- The ASCII bytes of the tag `E0SP`. -/
def tagE0SP : List Nat := [0x45, 0x30, 0x53, 0x50]

/-- The ASCII bytes of the tag `E1SP`. -/
def tagE1SP : List Nat := [0x45, 0x31, 0x53, 0x50]

/-- The ASCII bytes of the tag `E2SP`. -/
def tagE2SP : List Nat := [0x45, 0x32, 0x53, 0x50]

/-- The ASCII bytes of the tag `E0MO`. -/
def tagE0MO : List Nat := [0x45, 0x30, 0x4D, 0x4F]

/-- The ASCII bytes of the tag `E1MO`. -/
def tagE1MO : List Nat := [0x45, 0x31, 0x4D, 0x4F]

/-- The ASCII bytes of the tag `E2MO`. -/
def tagE2MO : List Nat := [0x45, 0x32, 0x4D, 0x4F]

/-- The ASCII bytes of the tag `E0D1`. -/
def tagE0D1 : List Nat := [0x45, 0x30, 0x44, 0x31]

/-- The ASCII bytes of the tag `E1D1`. -/
def tagE1D1 : List Nat := [0x45, 0x31, 0x44, 0x31]

/-- The ASCII bytes of the tag `E2D1`. -/
def tagE2D1 : List Nat := [0x45, 0x32, 0x44, 0x31]

/-- The ASCII bytes of the tag `E0DV`. -/
def tagE0DV : List Nat := [0x45, 0x30, 0x44, 0x56]

/-- The ASCII bytes of the tag `E1DV`. -/
def tagE1DV : List Nat := [0x45, 0x31, 0x44, 0x56]

/-- The ASCII bytes of the tag `E2DV`. -/
def tagE2DV : List Nat := [0x45, 0x32, 0x44, 0x56]

/-- The ASCII bytes of the tag `LEN0`. -/
def tagLEN0 : List Nat := [0x4C, 0x45, 0x4E, 0x30]

/-- The ASCII bytes of the tag `LEN1`. -/
def tagLEN1 : List Nat := [0x4C, 0x45, 0x4E, 0x31]

/-- The ASCII bytes of the tag `LEN2`. -/
def tagLEN2 : List Nat := [0x4C, 0x45, 0x4E, 0x32]

/-- The ASCII bytes of the tag `LEN3`. -/
def tagLEN3 : List Nat := [0x4C, 0x45, 0x4E, 0x33]

/-- The ASCII bytes of the tag `SWEE`. -/
def tagSWEE : List Nat := [0x53, 0x57, 0x45, 0x45]

/-- The ASCII bytes of the tag `CRF1`. -/
def tagCRF1 : List Nat := [0x43, 0x52, 0x46, 0x31]

/-- The ASCII bytes of the tag `CRF2`. -/
def tagCRF2 : List Nat := [0x43, 0x52, 0x46, 0x32]

/-- The ASCII bytes of the tag `SWCT`. -/
def tagSWCT : List Nat := [0x53, 0x57, 0x43, 0x54]

/-- The ASCII bytes of the tag `SIRQ`. -/
def tagSIRQ : List Nat := [0x53, 0x49, 0x52, 0x51]

/-- The ASCII bytes of the tag `5ACC`. -/
def tagFiveACC : List Nat := [0x35, 0x41, 0x43, 0x43]

/-- The ASCII bytes of the tag `5BIT`. -/
def tagFiveBIT : List Nat := [0x35, 0x42, 0x49, 0x54]

/-- The ASCII bytes of the tag `5ADD`. -/
def tagFiveADD : List Nat := [0x35, 0x41, 0x44, 0x44]

/-- The ASCII bytes of the tag `5SIZ`. -/
def tagFiveSIZ : List Nat := [0x35, 0x53, 0x49, 0x5A]

/-- The ASCII bytes of the tag `5SHF`. -/
def tagFiveSHF : List Nat := [0x35, 0x53, 0x48, 0x46]

/-- The ASCII bytes of the tag `5HVD`. -/
def tagFiveHVD : List Nat := [0x35, 0x48, 0x56, 0x44]

/-- The ASCII bytes of the tag `5HVS`. -/
def tagFiveHVS : List Nat := [0x35, 0x48, 0x56, 0x53]

/-- The ASCII bytes of the tag `5SZL`. -/
def tagFiveSZL : List Nat := [0x35, 0x53, 0x5A, 0x4C]

/-- The ASCII bytes of the tag `5ADL`. -/
def tagFiveADL : List Nat := [0x35, 0x41, 0x44, 0x4C]

/-- The ASCII bytes of the tag `5FMT`. -/
def tagFiveFMT : List Nat := [0x35, 0x46, 0x4D, 0x54]

/-- The ASCII bytes of the tag `RWDA`. -/
def tagRWDA : List Nat := [0x52, 0x57, 0x44, 0x41]

/-- The ASCII bytes of the tag `REGS`. -/
def tagREGS : List Nat := [0x52, 0x45, 0x47, 0x53]

/-- The ASCII bytes of the tag `CMD`. -/
def tagCMD : List Nat := [0x43, 0x4D, 0x44]

/-- The ASCII bytes of the tag `A000`. -/
def tagA000 : List Nat := [0x41, 0x30, 0x30, 0x30]

/-- The ASCII bytes of the tag `A001`. -/
def tagA001 : List Nat := [0x41, 0x30, 0x30, 0x31]

/-- The ASCII bytes of the tag `IRQR`. -/
def tagIRQR : List Nat := [0x49, 0x52, 0x51, 0x52]

/-- The ASCII bytes of the tag `IRQC`. -/
def tagIRQC : List Nat := [0x49, 0x52, 0x51, 0x43]

/-- The ASCII bytes of the tag `IRQL`. -/
def tagIRQL : List Nat := [0x49, 0x52, 0x51, 0x4C]

/-- The ASCII bytes of the tag `IRQA`. -/
def tagIRQA : List Nat := [0x49, 0x52, 0x51, 0x41]

/-- The ASCII bytes of the tag `WRAM`. -/
def tagWRAM : List Nat := [0x57, 0x52, 0x41, 0x4D]

/-- The ASCII bytes of the tag `CHRR`. -/
def tagCHRR : List Nat := [0x43, 0x48, 0x52, 0x52]



/-! ### Section state parsers

Each `*State::new` walks the sub-chunks of its section and fills a set of
locals that start from default values; unknown tags produce a warning and are
skipped.  The Rust locals that start as `None` and end in
`unwrap_or_else(new_boxed_array)` / `unwrap_or_default()` are modelled by
starting directly from that default value, which yields the same final
state. -/

/-- `CpuState` (savestate.rs). -/
structure CpuState where
  accumulator : Nat
  x_register : Nat
  y_register : Nat
  program_counter : Nat
  stack_pointer : Nat
  status : Nat
  data_bus : Nat
  ram : List Nat
deriving Repr

/-- The default local values of `CpuState::new`. -/
def cpuState0 : CpuState :=
  { accumulator := 0, x_register := 0, y_register := 0, program_counter := 0
    stack_pointer := 0, status := 0, data_bus := 0, ram := List.replicate 2048 0 }

/-- The tag-dispatch loop of `CpuState::new`. -/
def cpuStateLoop : List (List Nat × List Nat) → CpuState → Except ParseError CpuState
  | [], st => .ok st
  | (description, sec) :: rest, st =>
    if description = tagPC then
      match deserializeU16 sec with
      | .ok v => cpuStateLoop rest { st with program_counter := v }
      | .error e => .error e
    else if description = tagA then
      match deserializeU8 sec with
      | .ok v => cpuStateLoop rest { st with accumulator := v }
      | .error e => .error e
    else if description = tagP then
      match deserializeU8 sec with
      | .ok v => cpuStateLoop rest { st with status := v }
      | .error e => .error e
    else if description = tagX then
      match deserializeU8 sec with
      | .ok v => cpuStateLoop rest { st with x_register := v }
      | .error e => .error e
    else if description = tagY then
      match deserializeU8 sec with
      | .ok v => cpuStateLoop rest { st with y_register := v }
      | .error e => .error e
    else if description = tagS then
      match deserializeU8 sec with
      | .ok v => cpuStateLoop rest { st with stack_pointer := v }
      | .error e => .error e
    else if description = tagDB then
      match deserializeU8 sec with
      | .ok v => cpuStateLoop rest { st with data_bus := v }
      | .error e => .error e
    else if description = tagRAM then
      match deserializeBytes 2048 sec with
      | .ok v => cpuStateLoop rest { st with ram := v }
      | .error e => .error e
    else
      cpuStateLoop rest st

/-- `CpuState::new`. -/
def cpuStateNew (bytes : List Nat) : Except ParseError CpuState :=
  match subchunkNew bytes with
  | .ok sections => cpuStateLoop sections cpuState0
  | .error e => .error e

/-- `PpuState` (savestate.rs). -/
structure PpuState where
  nametables : List Nat
  palette_ram : List Nat
  oam : List Nat
  control : Nat
  mask : Nat
  status : Nat
  oam_addr : Nat
  tile_x_offset : Nat
  addr_latch : Nat
  vram_addr : Nat
  temp_vram_addr : Nat
  data_buffer : Nat
  general_latch : Nat
deriving Repr

/-- The default local values of `PpuState::new`. -/
def ppuState0 : PpuState :=
  { nametables := List.replicate 2048 0, palette_ram := List.replicate 32 0
    oam := List.replicate 256 0
    control := 0, mask := 0, status := 0, oam_addr := 0
    tile_x_offset := 0, addr_latch := 0, vram_addr := 0, temp_vram_addr := 0
    data_buffer := 0, general_latch := 0 }

/-- The tag-dispatch loop of `PpuState::new`.  The `PPUR` chunk carries the
four register bytes `[control, mask, status, oam_addr]`. -/
def ppuStateLoop : List (List Nat × List Nat) → PpuState → Except ParseError PpuState
  | [], st => .ok st
  | (description, sec) :: rest, st =>
    if description = tagNTAR then
      match deserializeBytes 2048 sec with
      | .ok v => ppuStateLoop rest { st with nametables := v }
      | .error e => .error e
    else if description = tagPRAM then
      match deserializeBytes 32 sec with
      | .ok v => ppuStateLoop rest { st with palette_ram := v }
      | .error e => .error e
    else if description = tagSPRA then
      match deserializeBytes 256 sec with
      | .ok v => ppuStateLoop rest { st with oam := v }
      | .error e => .error e
    else if description = tagPPUR then
      match deserializeBytes 4 sec with
      | .ok v => ppuStateLoop rest { st with
          control := v.getD 0 0, mask := v.getD 1 0
          status := v.getD 2 0, oam_addr := v.getD 3 0 }
      | .error e => .error e
    else if description = tagXOFF then
      match deserializeU8 sec with
      | .ok v => ppuStateLoop rest { st with tile_x_offset := v }
      | .error e => .error e
    else if description = tagVTGL then
      match deserializeU8 sec with
      | .ok v => ppuStateLoop rest { st with addr_latch := v }
      | .error e => .error e
    else if description = tagRADD then
      match deserializeU16 sec with
      | .ok v => ppuStateLoop rest { st with vram_addr := v }
      | .error e => .error e
    else if description = tagTADD then
      match deserializeU16 sec with
      | .ok v => ppuStateLoop rest { st with temp_vram_addr := v }
      | .error e => .error e
    else if description = tagVBUF then
      match deserializeU8 sec with
      | .ok v => ppuStateLoop rest { st with data_buffer := v }
      | .error e => .error e
    else if description = tagPGEN then
      match deserializeU8 sec with
      | .ok v => ppuStateLoop rest { st with general_latch := v }
      | .error e => .error e
    else
      ppuStateLoop rest st

/-- `PpuState::new`. -/
def ppuStateNew (bytes : List Nat) : Except ParseError PpuState :=
  match subchunkNew bytes with
  | .ok sections => ppuStateLoop sections ppuState0
  | .error e => .error e


/-- `ApuEnvelopeState` (savestate.rs). -/
structure ApuEnvelopeState where
  divider_reload : Nat
  divider : Nat
  mode : Nat
  decay_level : Nat
deriving Repr

def apuEnvelope0 : ApuEnvelopeState :=
  { divider_reload := 0, divider := 0, mode := 0, decay_level := 0 }

/-- `ApuSweepState` (savestate.rs). -/
structure ApuSweepState where
  is_enabled : Bool
  target_period : Nat
  divider : Nat
deriving Repr

def apuSweep0 : ApuSweepState :=
  { is_enabled := false, target_period := 0, divider := 0 }

/-- `ApuState` (savestate.rs). -/
structure ApuState where
  channel_data : List Nat
  channel_enables : Nat
  frame_mode : Nat
  noise_shift_register : Nat
  triangle_linear_counter_reload_flag : Bool
  triangle_linear_counter : Nat
  pulse_1_envelope : ApuEnvelopeState
  pulse_2_envelope : ApuEnvelopeState
  noise_envelope : ApuEnvelopeState
  pulse_1_sweep : ApuSweepState
  pulse_2_sweep : ApuSweepState
  pulse_1_length_counter : Nat
  pulse_2_length_counter : Nat
  triangle_length_counter : Nat
  noise_length_counter : Nat
deriving Repr

/-- The default local values of `ApuState::new` (`noise_shift_register`
starts at 1). -/
def apuState0 : ApuState :=
  { channel_data := List.replicate 16 0, channel_enables := 0, frame_mode := 0
    noise_shift_register := 1, triangle_linear_counter_reload_flag := false
    triangle_linear_counter := 0
    pulse_1_envelope := apuEnvelope0, pulse_2_envelope := apuEnvelope0
    noise_envelope := apuEnvelope0
    pulse_1_sweep := apuSweep0, pulse_2_sweep := apuSweep0
    pulse_1_length_counter := 0, pulse_2_length_counter := 0
    triangle_length_counter := 0, noise_length_counter := 0 }

/-- The tag-dispatch loop of `ApuState::new`.  `FHCN`/`FCNT` and the DMC tags
(`SIRQ`, `5ACC`, …, `RWDA`) are recognized but ignored; the length counters
and sweep periods are stored as `u32` and truncated to `u8`/`u16` on read. -/
def apuStateLoop : List (List Nat × List Nat) → ApuState → Except ParseError ApuState
  | [], st => .ok st
  | (description, sec) :: rest, st =>
    if description = tagFHCN ∨ description = tagFCNT then apuStateLoop rest st
    else if description = tagPSG then
      match deserializeBytes 16 sec with
      | .ok v => apuStateLoop rest { st with channel_data := v }
      | .error e => .error e
    else if description = tagENCH then
      match deserializeU8 sec with
      | .ok v => apuStateLoop rest { st with channel_enables := v }
      | .error e => .error e
    else if description = tagIQFM then
      match deserializeU8 sec with
      | .ok v => apuStateLoop rest { st with frame_mode := v }
      | .error e => .error e
    else if description = tagNREG then
      match deserializeU16 sec with
      | .ok v => apuStateLoop rest { st with noise_shift_register := v }
      | .error e => .error e
    else if description = tagTRIM then
      match deserializeBool sec with
      | .ok v => apuStateLoop rest { st with triangle_linear_counter_reload_flag := v }
      | .error e => .error e
    else if description = tagTRIC then
      match deserializeU8 sec with
      | .ok v => apuStateLoop rest { st with triangle_linear_counter := v }
      | .error e => .error e
    else if description = tagE0SP then
      match deserializeU8 sec with
      | .ok v => apuStateLoop rest
          { st with pulse_1_envelope := { st.pulse_1_envelope with divider_reload := v } }
      | .error e => .error e
    else if description = tagE1SP then
      match deserializeU8 sec with
      | .ok v => apuStateLoop rest
          { st with pulse_2_envelope := { st.pulse_2_envelope with divider_reload := v } }
      | .error e => .error e
    else if description = tagE2SP then
      match deserializeU8 sec with
      | .ok v => apuStateLoop rest
          { st with noise_envelope := { st.noise_envelope with divider_reload := v } }
      | .error e => .error e
    else if description = tagE0MO then
      match deserializeU8 sec with
      | .ok v => apuStateLoop rest
          { st with pulse_1_envelope := { st.pulse_1_envelope with mode := v } }
      | .error e => .error e
    else if description = tagE1MO then
      match deserializeU8 sec with
      | .ok v => apuStateLoop rest
          { st with pulse_2_envelope := { st.pulse_2_envelope with mode := v } }
      | .error e => .error e
    else if description = tagE2MO then
      match deserializeU8 sec with
      | .ok v => apuStateLoop rest
          { st with noise_envelope := { st.noise_envelope with mode := v } }
      | .error e => .error e
    else if description = tagE0D1 then
      match deserializeU8 sec with
      | .ok v => apuStateLoop rest
          { st with pulse_1_envelope := { st.pulse_1_envelope with divider := v } }
      | .error e => .error e
    else if description = tagE1D1 then
      match deserializeU8 sec with
      | .ok v => apuStateLoop rest
          { st with pulse_2_envelope := { st.pulse_2_envelope with divider := v } }
      | .error e => .error e
    else if description = tagE2D1 then
      match deserializeU8 sec with
      | .ok v => apuStateLoop rest
          { st with noise_envelope := { st.noise_envelope with divider := v } }
      | .error e => .error e
    else if description = tagE0DV then
      match deserializeU8 sec with
      | .ok v => apuStateLoop rest
          { st with pulse_1_envelope := { st.pulse_1_envelope with decay_level := v } }
      | .error e => .error e
    else if description = tagE1DV then
      match deserializeU8 sec with
      | .ok v => apuStateLoop rest
          { st with pulse_2_envelope := { st.pulse_2_envelope with decay_level := v } }
      | .error e => .error e
    else if description = tagE2DV then
      match deserializeU8 sec with
      | .ok v => apuStateLoop rest
          { st with noise_envelope := { st.noise_envelope with decay_level := v } }
      | .error e => .error e
    else if description = tagLEN0 then
      match deserializeU32 sec with
      | .ok v => apuStateLoop rest { st with pulse_1_length_counter := v % 256 }
      | .error e => .error e
    else if description = tagLEN1 then
      match deserializeU32 sec with
      | .ok v => apuStateLoop rest { st with pulse_2_length_counter := v % 256 }
      | .error e => .error e
    else if description = tagLEN2 then
      match deserializeU32 sec with
      | .ok v => apuStateLoop rest { st with triangle_length_counter := v % 256 }
      | .error e => .error e
    else if description = tagLEN3 then
      match deserializeU32 sec with
      | .ok v => apuStateLoop rest { st with noise_length_counter := v % 256 }
      | .error e => .error e
    else if description = tagSWEE then
      match deserializeBools 2 sec with
      | .ok v => apuStateLoop rest
          { st with
            pulse_1_sweep := { st.pulse_1_sweep with is_enabled := v.getD 0 false }
            pulse_2_sweep := { st.pulse_2_sweep with is_enabled := v.getD 1 false } }
      | .error e => .error e
    else if description = tagCRF1 then
      match deserializeU32 sec with
      | .ok v => apuStateLoop rest
          { st with pulse_1_sweep := { st.pulse_1_sweep with target_period := v % 65536 } }
      | .error e => .error e
    else if description = tagCRF2 then
      match deserializeU32 sec with
      | .ok v => apuStateLoop rest
          { st with pulse_2_sweep := { st.pulse_2_sweep with target_period := v % 65536 } }
      | .error e => .error e
    else if description = tagSWCT then
      match deserializeBytes 2 sec with
      | .ok v => apuStateLoop rest
          { st with
            pulse_1_sweep := { st.pulse_1_sweep with divider := v.getD 0 0 }
            pulse_2_sweep := { st.pulse_2_sweep with divider := v.getD 1 0 } }
      | .error e => .error e
    else if description = tagSIRQ ∨ description = tagFiveACC ∨ description = tagFiveBIT
        ∨ description = tagFiveADD ∨ description = tagFiveSIZ ∨ description = tagFiveSHF
        ∨ description = tagFiveHVD ∨ description = tagFiveHVS ∨ description = tagFiveSZL
        ∨ description = tagFiveADL ∨ description = tagFiveFMT ∨ description = tagRWDA then
      apuStateLoop rest st
    else
      apuStateLoop rest st

/-- `ApuState::new`. -/
def apuStateNew (bytes : List Nat) : Except ParseError ApuState :=
  match subchunkNew bytes with
  | .ok sections => apuStateLoop sections apuState0
  | .error e => .error e

/-- `MapperState::new` — just the parsed sub-chunk sections, handed to the
mapper's `apply_state`. -/
def mapperStateNew (bytes : List Nat) : Except ParseError (List (List Nat × List Nat)) :=
  subchunkNew bytes


/-! ### The savestate header and top-level parser -/

/-- `Header` (savestate.rs): `old_version` at byte 3, then three `u32LE`
fields; a compressed-size of `0` or `0xFFFFFFFF` means uncompressed.
`Header::new` is always called with exactly 16 bytes. -/
structure Header where
  old_version : Nat
  file_size : Nat
  version : Nat
  compressed_size : Option Nat
deriving Repr

def headerNew (bytes : List Nat) : Except ParseError Header :=
  let compressed_size := leToNat ((bytes.drop 12).take 4)
  .ok { old_version := bytes.getD 3 0
        file_size := leToNat ((bytes.drop 4).take 4)
        version := leToNat ((bytes.drop 8).take 4)
        compressed_size :=
          if compressed_size = 0 ∨ compressed_size = 0xFFFFFFFF then none
          else some compressed_size }

/-- `SectionChunkKind` (savestate.rs). -/
inductive SectionChunkKind where
  | Cpu
  | Cpuc
  | Ppu
  | Ctlr
  | Snd
  | Extra
  | Unknown
deriving DecidableEq, Repr

/-- `SectionChunkKind::new`. -/
def sectionChunkKindNew (byte : Nat) : SectionChunkKind :=
  match byte with
  | 1 => .Cpu
  | 2 => .Cpuc
  | 3 => .Ppu
  | 4 => .Ctlr
  | 5 => .Snd
  | 16 => .Extra
  | _ => .Unknown

/-- `Savestate` (savestate.rs), with the mapper state as its raw sub-chunk
section list. -/
structure Savestate where
  header : Header
  cpu_state : CpuState
  ppu_state : PpuState
  apu_state : ApuState
  mapper_state : List (List Nat × List Nat)

/-- The parsed optional section states accumulated by the loop of
`Savestate::new`. -/
abbrev SectionStates :=
  Option CpuState × Option PpuState × Option ApuState ×
    Option (List (List Nat × List Nat))

/-- The section loop of `Savestate::new` (savestate.rs 58-74).  Each iteration
executes `bytes.split_at(5)` and then `rest.split_at(section_size)` with **no
length checks**: when fewer than 5 bytes remain, or when the declared section
size exceeds the remaining bytes, the slice call panics — modelled by
`PResult.panicked`. -/
def sectionLoop (bytes : List Nat) (states : SectionStates) : PResult SectionStates :=
  if bytes.isEmpty then .ok states
  else if _h5 : bytes.length < 5 then .panicked
  else
    let section_header := bytes.take 5
    let rest := bytes.drop 5
    let section_kind := sectionChunkKindNew (section_header.getD 0 0)
    let section_size := leToNat (section_header.drop 1)
    if _hsz : rest.length < section_size then .panicked
    else
      let sec := rest.take section_size
      let rest2 := rest.drop section_size
      let (cpu, ppu, apu, mapper) := states
      match section_kind with
      | .Cpu =>
        match cpuStateNew sec with
        | .ok c => sectionLoop rest2 (some c, ppu, apu, mapper)
        | .error e => .err e
      | .Ppu =>
        match ppuStateNew sec with
        | .ok p => sectionLoop rest2 (cpu, some p, apu, mapper)
        | .error e => .err e
      | .Snd =>
        match apuStateNew sec with
        | .ok a => sectionLoop rest2 (cpu, ppu, some a, mapper)
        | .error e => .err e
      | .Extra =>
        match mapperStateNew sec with
        | .ok m => sectionLoop rest2 (cpu, ppu, apu, some m)
        | .error e => .err e
      | _ => sectionLoop rest2 (cpu, ppu, apu, mapper)
termination_by bytes.length
decreasing_by
  all_goals simp only [List.length_drop]
  all_goals omega

/-- `Savestate::new` — parses an uncompressed FCS savestate.  The up-front
checks (magic, 16-byte header, compression, file size, first section header)
return recoverable errors; the section loop itself can panic (see
`sectionLoop`). -/
def savestateNew (bytes : List Nat) : PResult Savestate :=
  if bytes.length < 3 ∨ bytes.take 3 ≠ tagFCS then .err .notASavestate
  else if bytes.length < 16 then .err .headerEndedUnexpectedly
  else
    let header_bytes := bytes.take 16
    let rest := bytes.drop 16
    match headerNew header_bytes with
    | .error e => .err e
    | .ok header =>
      if header.compressed_size.isSome then .err .compressedSavestate
      else if rest.length ≠ header.file_size then .err .fileSizeMismatch
      else if rest.length < 5 then .err .sectionHeaderEndedUnexpectedly
      else
        match sectionLoop rest (none, none, none, none) with
        | .panicked => .panicked
        | .err e => .err e
        | .ok (cpu, ppu, apu, mapper) =>
          match cpu, ppu, apu, mapper with
          | some c, some p, some a, some m =>
            .ok { header := header, cpu_state := c, ppu_state := p
                  apu_state := a, mapper_state := m }
          | none, _, _, _ => .err .missingCpuState
          | _, none, _, _ => .err .missingPpuState
          | _, _, none, _ => .err .missingApuState
          | _, _, _, none => .err .missingMapperState


/-! ## Mapper 4 — MMC3 (src/mapper/mapper_4.rs)

Only the serialization surface is needed by the claims; the address
translation and IRQ counter are not modelled.  `bank_select` is the raw byte
of the `BankSelect` bit-field (`.0`). -/

structure Mapper4 where
  prg_rom : List Nat
  prg_ram : List Nat
  chr_rom : List Nat
  has_chr_ram : Bool
  bank_register : List Nat
  bank_select : Nat
  irq_latch : Nat
  irq_counter : Nat
  irq_reload : Bool
  is_irq_enabled : Bool
  emit_irq : Bool
  mirroring : Mirroring
  prg_ram_protect : Nat
  prg_banks : Nat

/-- `bool as u8` / `ToBytes for bool`. -/
def boolByte (b : Bool) : Nat := if b then 1 else 0

/-- The mirroring byte written by `Mapper4::save_state`; the single-screen
modes hit `unreachable!()` there (Mapper4 only ever sets Vertical or
Horizontal), modelled as `none`. -/
def mirroringByte : Mirroring → Option Nat
  | .Vertical => some 0
  | .Horizontal => some 1
  | .SingleScreen => none
  | .SingleScreenUpper => none

/-- `Mapper4::save_state` — serializes CHR-RAM (when present), PRG-RAM, the
eight bank registers, the bank-select byte, the mirroring byte, the PRG-RAM
protect byte and the four IRQ fields, in that order. -/
def mapper4SaveState (m : Mapper4) : Option (List Nat) :=
  match mirroringByte m.mirroring with
  | none => none
  | some mirror =>
    some ((if m.has_chr_ram then serialize m.chr_rom tagCHRR else [])
      ++ serialize m.prg_ram tagWRAM
      ++ serialize m.bank_register tagREGS
      ++ serialize [m.bank_select] tagCMD
      ++ serialize [mirror] tagA000
      ++ serialize [m.prg_ram_protect] tagA001
      ++ serialize [boolByte m.irq_reload] tagIRQR
      ++ serialize [m.irq_counter] tagIRQC
      ++ serialize [m.irq_latch] tagIRQL
      ++ serialize [boolByte m.is_irq_enabled] tagIRQA)

/-- `Mapper4::apply_state` — walks the mapper sub-chunk sections.  Recognized
register tags deserialize with `unwrap_or_default()` (wrong-sized sections
yield the type's default value); `WRAM`/`CHRR` replace the RAM buffers only
when the section length matches, and `CHRR` only when CHR-RAM is present;
unknown tags warn and are skipped. -/
def mapper4ApplyState (m : Mapper4) :
    List (List Nat × List Nat) → Mapper4
  | [] => m
  | (description, sec) :: rest =>
    let m :=
      if description = tagREGS then
        { m with bank_register :=
            if sec.length = 8 then sec else List.replicate 8 0 }
      else if description = tagCMD then
        { m with bank_select := if sec.length = 1 then leToNat sec else 0 }
      else if description = tagA000 then
        { m with mirroring :=
            if (if sec.length = 1 then leToNat sec else 0) = 0
            then Mirroring.Vertical else Mirroring.Horizontal }
      else if description = tagA001 then
        { m with prg_ram_protect := if sec.length = 1 then leToNat sec else 0 }
      else if description = tagIRQR then
        { m with irq_reload :=
            if sec.length = 1 then (leToNat sec ≠ 0 : Bool) else false }
      else if description = tagIRQC then
        { m with irq_counter := if sec.length = 1 then leToNat sec else 0 }
      else if description = tagIRQL then
        { m with irq_latch := if sec.length = 1 then leToNat sec else 0 }
      else if description = tagIRQA then
        { m with is_irq_enabled :=
            if sec.length = 1 then (leToNat sec ≠ 0 : Bool) else false }
      else if description = tagWRAM then
        if sec.length = m.prg_ram.length then { m with prg_ram := sec } else m
      else if description = tagCHRR then
        if m.has_chr_ram then
          if sec.length = m.chr_rom.length then { m with chr_rom := sec } else m
        else m
      else m
    mapper4ApplyState m rest


/-! ## Concrete CPU states used by counterexamples and witnesses -/

/-- A CPU state with empty memory, reset-style registers and a cleared status
byte (`Status::default()` is the empty flag set, so the stored bit 5 is 0). -/
def cpu0 : Cpu :=
  { accumulator := 0
    x_register := 0
    y_register := 0
    program_counter := 0x8000
    stack_pointer := 0xFD
    status := 0
    absolute_address := 0
    operate_on_accumulator := false
    branch_will_cross_page := false
    address_will_not_cross_page := false
    mem := fun _ => 0 }

/-- `cpu0` with the byte `0x20` (bit 5 set) on top of the stack, about to be
pulled from `0x01FE`. -/
def cpuBit5OnStack : Cpu :=
  { cpu0 with mem := fun a => if a = 0x01FE then 0x20 else 0 }

/-- `cpu0` with an indirect-JMP pointer operand `$02FF` at the program counter
and target bytes at `$02FF` (low) and `$0200` (high). -/
def cpuJmpWrap : Cpu :=
  { cpu0 with mem := fun a =>
      if a = 0x8001 then 0xFF else
      if a = 0x8002 then 0x02 else
      if a = 0x02FF then 0x34 else
      if a = 0x0200 then 0x12 else 0 }

/-- A PPU compositing state in which the background pixel is opaque (bit 15 of
the low pattern shift register set, `fine_x_scroll = 0`), sprite slot 0 is not
involved (its X counter has not reached zero), and sprite slot 1 produces an
opaque pixel (bit 7 of its high shift register set).  Slots 2-7 are
transparent. -/
def ppuSlot1Overlap : Ppu :=
  { control := 0
    mask := 0x18
    status := 0
    nametables := fun _ => 0
    palette_ram := fun _ => 0
    oam := fun _ => 0
    oam_addr := 0
    ppu_data_buffer := 0
    vram_addr := 0
    addr_latch := 0
    fine_x_scroll := 0
    pattern_table_shift_low := 0x8000
    pattern_table_shift_high := 0
    palette_attrib_shift_low := 0
    palette_attrib_shift_high := 0
    sprite_x_pos := fun i => if i = 0 then 5 else 0
    sprite_pattern_shift_low := fun _ => 0
    sprite_pattern_shift_high := fun i => if i = 1 then 0x80 else 0
    sprite_attrib := fun _ => 0
    chr := fun _ => 0
    mirroring := .Vertical }

/-- A PPU state for witnesses: VRAM address in the palette range and a
set status byte. -/
def ppuPalRead : Ppu :=
  { ppuSlot1Overlap with vram_addr := 0x3F10, status := 0xA5, ppu_data_buffer := 0x5A }

/-- A savestate input on which `Savestate::new` panics: a valid `FCS` header
declaring an uncompressed body of 5 bytes, whose single 5-byte section header
declares a section size of `0xFFFFFFFF` — the subsequent
`rest.split_at(section_size)` is out of bounds. -/
def badSavestate : List Nat :=
  tagFCS ++ [0x00] ++ [5, 0, 0, 0] ++ [0, 0, 0, 0] ++ [0xFF, 0xFF, 0xFF, 0xFF]
    ++ [0x00, 0xFF, 0xFF, 0xFF, 0xFF]

/-- The round-trip composition for the mapper serialization claims:
`Mapper4::save_state`, parsed back through `Subchunk::new` (as
`MapperState::new` does), then applied with `Mapper4::apply_state` on top of a
starting mapper state `m0`. -/
def mapper4Roundtrip (m0 m : Mapper4) : Option Mapper4 :=
  match mapper4SaveState m with
  | none => none
  | some buffer =>
    match subchunkNew buffer with
    | .ok sections => some (mapper4ApplyState m0 sections)
    | .error _ => none

/-- A concrete Mapper4 state exercising the serialization round trip. -/
def mapper4Sample : Mapper4 :=
  { prg_rom := [], prg_ram := [0xAB, 0xCD], chr_rom := [0x11], has_chr_ram := true
    bank_register := [1, 2, 3, 4, 5, 6, 7, 8], bank_select := 0xC3
    irq_latch := 0x40, irq_counter := 0x24, irq_reload := true
    is_irq_enabled := true, emit_irq := false, mirroring := .Horizontal
    prg_ram_protect := 0x80, prg_banks := 8 }

/-- A second Mapper4 state, the target of `apply_state` in the witness. -/
def mapper4Blank : Mapper4 :=
  { prg_rom := [], prg_ram := [0, 0], chr_rom := [0], has_chr_ram := true
    bank_register := [0, 0, 0, 0, 0, 0, 0, 0], bank_select := 0
    irq_latch := 0, irq_counter := 0, irq_reload := false
    is_irq_enabled := false, emit_irq := false, mirroring := .Vertical
    prg_ram_protect := 0x80, prg_banks := 8 }

end Nes

namespace Nes

/-! # Theorems -/

/-! ## Auxiliary bit lemmas -/

theorem and_ff00_eq (x : Nat) (hx : x < 65536) : x &&& 0xFF00 = (x >>> 8) <<< 8 := by
  apply Nat.eq_of_testBit_eq
  intro i
  rw [Nat.testBit_and, Nat.testBit_shiftLeft, Nat.testBit_shiftRight]
  by_cases h8 : 8 ≤ i
  · have hi : 8 + (i - 8) = i := by omega
    by_cases h16 : i < 16
    · have hm : Nat.testBit 0xFF00 i = true := by interval_cases i <;> decide
      simp [hm, h8, hi]
    · have hpow : (65536 : Nat) ≤ 2 ^ i := by
        calc (65536 : Nat) = 2 ^ 16 := by norm_num
          _ ≤ 2 ^ i := Nat.pow_le_pow_right (by norm_num) (by omega)
      have hxi : Nat.testBit x i = false :=
        Nat.testBit_lt_two_pow (lt_of_lt_of_le hx hpow)
      have hm : Nat.testBit 0xFF00 i = false :=
        Nat.testBit_lt_two_pow (lt_of_lt_of_le (by norm_num) hpow)
      simp [hm, hxi, hi, h8]
  · have hm : Nat.testBit 0xFF00 i = false := by interval_cases i <;> decide
    simp [hm, h8]

theorem concatBytes_lt (low high : Nat) (hl : low < 256) (hh : high < 256) :
    concatBytes low high < 65536 := by
  have h1 : high <<< 8 < 65536 := by
    rw [Nat.shiftLeft_eq]
    norm_num
    omega
  exact Nat.or_lt_two_pow (n := 16) h1 (by omega)

/-! ## C1 — status byte pushed by PHP, BRK, NMI -/

/-- **C1, counterexample.**  The claim states that PHP, BRK and NMI all push the
status byte with bit 5 forced to 1 regardless of the stored value.  With the
reset-style state `cpu0` (stored status byte 0), `Cpu::brk` pushes its status
byte to `$01FB` with bit 5 clear, and so does `Cpu::nmi`: only PHP forces
bit 5. -/
theorem brk_nmi_bit5_not_forced :
    ((Cpu.brk cpu0).2.mem 0x01FB).testBit 5 = false
  ∧ ((Cpu.nmi cpu0).mem 0x01FB).testBit 5 = false := by
  constructor <;> decide

/-- **C1, amended.**  For every CPU state: `Cpu::php` pushes the status byte
with the break flag and bit 5 forced set (so the pushed bit 5 is always 1);
`Cpu::brk` pushes the status byte with only the break flag forced, leaving
bit 5 exactly as stored; `Cpu::nmi` pushes the raw stored status byte
unchanged.  The pushed byte lands at `$0100 + sp` for the first push and at
`$0100 + (sp - 2 mod 256)` for the third. -/
theorem pushed_status_bytes (s : Cpu) :
    ((Cpu.php s).2.mem (0x0100 + s.stack_pointer)).testBit 5 = true
  ∧ (Cpu.brk s).2.mem (0x0100 + (s.stack_pointer + 254) % 256) = s.status ||| statusB
  ∧ ((Cpu.brk s).2.mem (0x0100 + (s.stack_pointer + 254) % 256)).testBit 5
      = s.status.testBit 5
  ∧ (Cpu.nmi s).mem (0x0100 + (s.stack_pointer + 254) % 256) = s.status := by
  have hsp : ((s.stack_pointer + 255) % 256 + 255) % 256 = (s.stack_pointer + 254) % 256 := by
    omega
  have h32 : Nat.testBit 32 5 = true := by decide
  have h16 : Nat.testBit statusB 5 = false := by decide
  refine ⟨?_, ?_, ?_, ?_⟩
  · simp [Cpu.php, Cpu.push, Cpu.write, Nat.testBit_or, h32]
  · simp [Cpu.brk, Cpu.push, Cpu.write, Cpu.read, Cpu.read_u16_absolute, hsp]
  · simp [Cpu.brk, Cpu.push, Cpu.write, Cpu.read, Cpu.read_u16_absolute, hsp,
      Nat.testBit_or, h16]
  · simp [Cpu.nmi, Cpu.push, Cpu.write, Cpu.read, Cpu.read_u16_absolute, hsp]

/-! ## C2 — status byte pulled by PLP and RTI -/

/-- **C2, counterexample.**  The claim states that PLP leaves bit 5 exactly as
it was in the pulled byte.  With `0x20` (bit 5 set) on top of the stack,
`Cpu::plp` produces a status register with bit 5 clear: PLP masks bit 5 away
(`status & !(1 << 5)`). -/
theorem plp_clears_bit5 :
    (cpuBit5OnStack.mem 0x01FE).testBit 5 = true
  ∧ ((Cpu.plp cpuBit5OnStack).2.status).testBit 5 = false := by
  constructor <;> decide

/-- **C2, amended.**  For every CPU state, with `p` the byte pulled off the
stack: `Cpu::plp` sets the status register to `p` with both the break flag
(bit 4) and bit 5 cleared, while `Cpu::rti` sets it to `p` with only the break
flag cleared, leaving bit 5 exactly as pulled. -/
theorem plp_rti_status_handling (s : Cpu) :
    (Cpu.plp s).2.status = (s.mem (0x0100 + (s.stack_pointer + 1) % 256) &&& 0xDF) &&& 0xEF
  ∧ ((Cpu.plp s).2.status).testBit 4 = false
  ∧ ((Cpu.plp s).2.status).testBit 5 = false
  ∧ (Cpu.rti s).2.status = s.mem (0x0100 + (s.stack_pointer + 1) % 256) &&& 0xEF
  ∧ ((Cpu.rti s).2.status).testBit 4 = false
  ∧ ((Cpu.rti s).2.status).testBit 5
      = (s.mem (0x0100 + (s.stack_pointer + 1) % 256)).testBit 5 := by
  have hDF4 : Nat.testBit 0xDF 4 = true := by decide
  have hDF5 : Nat.testBit 0xDF 5 = false := by decide
  have hEF4 : Nat.testBit 0xEF 4 = false := by decide
  have hEF5 : Nat.testBit 0xEF 5 = true := by decide
  refine ⟨?_, ?_, ?_, ?_, ?_, ?_⟩ <;>
    simp [Cpu.plp, Cpu.rti, Cpu.pull, Cpu.read, Nat.testBit_and, hDF4, hDF5, hEF4, hEF5]

/-! ## C3 — branch instruction cycle counts -/

/-- **C3.**  For every branch condition (the eight branch instructions BCC,
BCS, BEQ, BMI, BNE, BPL, BVC, BVS all dispatch into `Cpu::branch` through a
condition, with relative addressing) and every CPU state, the total cycle count
of `Cpu::execute` is 2 when the branch is not taken, 3 when it is taken and the
target lies in the page of the next instruction (`pc + 2`), and 4 when it is
taken and crosses a page. -/
theorem branch_cycle_counts (c : Cpu.BranchCondition) (s : Cpu) :
    (Cpu.executeParts Cpu.relative (Cpu.branch c) s).1 =
      if Cpu.conditionMet c s.status then
        if highByte ((Cpu.wrapAddSigned16 ((s.program_counter + 1) % 65536)
              (Cpu.asI8 (s.mem ((s.program_counter + 1) % 65536))) + 1) % 65536)
            = highByte ((s.program_counter + 2) % 65536)
        then 3 else 4
      else 2 := by
  have hpc : ((s.program_counter + 1) % 65536 + 1) % 65536 = (s.program_counter + 2) % 65536 := by
    omega
  simp only [Cpu.executeParts, Cpu.relative, Cpu.branch, Cpu.read, hpc]
  by_cases hc : Cpu.conditionMet c s.status <;>
    simp only [hc, if_true, if_false] <;>
    split_ifs <;> simp_all

/-! ## C4 — INC/DEC/STA always charge the page-crossing cycle -/

/-- **C4.**  For INC and DEC in indexed absolute addressing and for STA in
indexed absolute and indirect-indexed addressing, the total cycle count of
`Cpu::execute` is a constant — 7 for INC/DEC absolute,X, 5 for STA absolute,X
and absolute,Y, 6 for STA (zp),Y — independent of whether the indexed address
crosses a page: the crossing cost is always charged, with a compensating extra
cycle added by the instruction when the index did not cross.  The decode table
assigns exactly these modes to opcodes `0xFE`, `0xDE`, `0x9D`, `0x99`,
`0x91`. -/
theorem inc_dec_sta_always_charge_crossing (s : Cpu) :
    (Cpu.executeParts (Cpu.absolute_indexed .X) (Cpu.increment none 1) s).1 = 7
  ∧ (Cpu.executeParts (Cpu.absolute_indexed .X) (Cpu.increment none (-1)) s).1 = 7
  ∧ (Cpu.executeParts (Cpu.absolute_indexed .X) Cpu.sta s).1 = 5
  ∧ (Cpu.executeParts (Cpu.absolute_indexed .Y) Cpu.sta s).1 = 5
  ∧ (Cpu.executeParts Cpu.indirect_indexed Cpu.sta s).1 = 6
  ∧ decode 0xFE = some ⟨.Inc, .AbsoluteX⟩
  ∧ decode 0xDE = some ⟨.Dec, .AbsoluteX⟩
  ∧ decode 0x9D = some ⟨.Sta, .AbsoluteX⟩
  ∧ decode 0x99 = some ⟨.Sta, .AbsoluteY⟩
  ∧ decode 0x91 = some ⟨.Sta, .IndirectIndexed⟩ := by
  refine ⟨?_, ?_, ?_, ?_, ?_, rfl, rfl, rfl, rfl, rfl⟩ <;>
    simp only [Cpu.executeParts, Cpu.absolute_indexed, Cpu.indirect_indexed,
      Cpu.increment, Cpu.sta, Cpu.read_u16, Cpu.read_u16_absolute, Cpu.read,
      Cpu.write, Cpu.get_register] <;>
    split_ifs <;> simp_all

/-! ## C5 — indirect JMP page-boundary wrap -/

/-- **C5.**  Opcode `0x6C` decodes to JMP with indirect addressing, and for
every CPU state whose two pointer-operand bytes are bytes: when the pointer has
the form `$xxFF` the jump target is assembled from the low byte at `$xxFF` and
the high byte at `$xx00` of the *same* page (`256 * (ptr / 256)`), never
`$(xx+1)00`; for every other pointer the high byte comes from `ptr + 1`. -/
theorem indirect_jmp_page_wrap (s : Cpu)
    (h1 : s.mem ((s.program_counter + 1) % 65536) < 256)
    (h2 : s.mem (((s.program_counter + 1) % 65536 + 1) % 65536) < 256) :
    (decode 0x6C = some ⟨.Jmp, .Indirect⟩)
  ∧ ((Cpu.executeParts Cpu.indirect Cpu.jmp s).2.program_counter =
      if (concatBytes (s.mem ((s.program_counter + 1) % 65536))
            (s.mem (((s.program_counter + 1) % 65536 + 1) % 65536))) % 256 = 0xFF
      then concatBytes
            (s.mem (concatBytes (s.mem ((s.program_counter + 1) % 65536))
              (s.mem (((s.program_counter + 1) % 65536 + 1) % 65536))))
            (s.mem (256 * (concatBytes (s.mem ((s.program_counter + 1) % 65536))
              (s.mem (((s.program_counter + 1) % 65536 + 1) % 65536)) / 256)))
      else concatBytes
            (s.mem (concatBytes (s.mem ((s.program_counter + 1) % 65536))
              (s.mem (((s.program_counter + 1) % 65536 + 1) % 65536))))
            (s.mem (concatBytes (s.mem ((s.program_counter + 1) % 65536))
              (s.mem (((s.program_counter + 1) % 65536 + 1) % 65536)) + 1))) := by
  refine ⟨rfl, ?_⟩
  simp only [Cpu.executeParts, Cpu.indirect, Cpu.jmp, Cpu.read_u16,
    Cpu.read_u16_absolute, Cpu.read, lowByte]
  set L := s.mem ((s.program_counter + 1) % 65536) with hL
  set H := s.mem (((s.program_counter + 1) % 65536 + 1) % 65536) with hH
  have hlt : concatBytes L H < 65536 := concatBytes_lt L H h1 h2
  have hshift : (concatBytes L H &&& 0xFF00) = 256 * (concatBytes L H / 256) := by
    rw [and_ff00_eq _ hlt, Nat.shiftLeft_eq, Nat.shiftRight_eq_div_pow]
    ring
  by_cases hff : concatBytes L H % 256 = 0xFF
  · simp [hff, hshift]
  · have hne : concatBytes L H ≠ 65535 := by
      intro h
      rw [h] at hff
      exact hff rfl
    have hmod : (concatBytes L H + 1) % 65536 = concatBytes L H + 1 := by
      apply Nat.mod_eq_of_lt
      omega
    simp [hff, hmod]

/-- **C5, witness.**  The page-wrap branch at a concrete state: pointer
`$02FF`, low byte `0x34` read from `$02FF`, high byte `0x12` read from `$0200`
(not `$0300`), target `$1234`. -/
theorem indirect_jmp_page_wrap_witness :
    (cpuJmpWrap.mem ((cpuJmpWrap.program_counter + 1) % 65536) < 256)
  ∧ ((Cpu.executeParts Cpu.indirect Cpu.jmp cpuJmpWrap).2.program_counter = 0x1234) := by
  refine ⟨by decide, ?_⟩
  have h := (indirect_jmp_page_wrap cpuJmpWrap (by decide) (by decide)).2
  rw [h]
  decide

/-! ## C6 — sprite-zero-hit in pixel compositing -/

/-- **C6.**  The claim states that a both-opaque overlap sets the
sprite-zero-hit flag only when sprite slot 0 is the sprite involved.  In
`ppuSlot1Overlap` the background pixel is opaque, slot 0's X counter has not
reached zero (so slot 0 is not involved in the overlap), and the opaque sprite
pixel comes from slot 1 — yet `Ppu::clock`'s compositing sets the
sprite-zero-hit status bit (bit 6): the code sets the flag on *every*
both-opaque overlap, with no check of the sprite slot. -/
theorem sprite_zero_hit_set_for_slot1 :
    ppuSlot1Overlap.sprite_x_pos 0 ≠ 0
  ∧ ppuSlot1Overlap.pattern_table_shift_low &&&
      (0x8000 >>> ppuSlot1Overlap.fine_x_scroll) > 0
  ∧ (Ppu.spriteSearch ppuSlot1Overlap Ppu.spriteSlots).1 ≠ 0
  ∧ ppuSlot1Overlap.status.testBit 6 = false
  ∧ ((Ppu.clockPixel ppuSlot1Overlap).2.status).testBit 6 = true := by
  refine ⟨by decide, by decide, by decide, by decide, by decide⟩

/-! ## C7 — PPUSTATUS read side effects -/

/-- **C7.**  For every PPU state, a CPU read of register index 2 (PPUSTATUS)
clears the vblank flag (bit 7 of the status byte), resets the write-toggle
latch to its first-write state (`addr_latch = 0`), and returns a byte whose top
3 bits (7, 6, 5: vblank, sprite-zero-hit, sprite-overflow) equal the status
register's top 3 bits, the rest being stale data from the PPU data buffer. -/
theorem ppustatus_read_side_effects (s : Ppu) :
    (Ppu.cpuRead s 2).2.status = s.status &&& 0x7F
  ∧ ((Ppu.cpuRead s 2).2.status).testBit 7 = false
  ∧ (Ppu.cpuRead s 2).2.addr_latch = 0
  ∧ ((Ppu.cpuRead s 2).1).testBit 7 = s.status.testBit 7
  ∧ ((Ppu.cpuRead s 2).1).testBit 6 = s.status.testBit 6
  ∧ ((Ppu.cpuRead s 2).1).testBit 5 = s.status.testBit 5 := by
  have h7f : Nat.testBit 0x7F 7 = false := by decide
  have hE7 : Nat.testBit 0xE0 7 = true := by decide
  have hE6 : Nat.testBit 0xE0 6 = true := by decide
  have hE5 : Nat.testBit 0xE0 5 = true := by decide
  have h17 : Nat.testBit 0x1F 7 = false := by decide
  have h16 : Nat.testBit 0x1F 6 = false := by decide
  have h15 : Nat.testBit 0x1F 5 = false := by decide
  refine ⟨rfl, ?_, rfl, ?_, ?_, ?_⟩ <;>
    simp [Ppu.cpuRead, Nat.testBit_and, Nat.testBit_or,
      h7f, hE7, hE6, hE5, h17, h16, h15]

/-! ## C10 — PPUDATA read buffering -/

/-- **C10.**  For every PPU state, a CPU read of register index 7 (PPUDATA)
returns the one-read-delay buffer when the current VRAM address is below
`0x3F00` and the freshly fetched palette byte when it is `0x3F00` or above; in
both cases the buffer is refilled from the current VRAM address, which then
advances by 1 or by 32 according to the control register's address-increment
bit (bit 2). -/
theorem ppudata_read_buffered_delay (s : Ppu) :
    (Ppu.cpuRead s 7).1 =
        (if 0x3F00 ≤ s.vram_addr then Ppu.ppuRead s s.vram_addr else s.ppu_data_buffer)
  ∧ (Ppu.cpuRead s 7).2.ppu_data_buffer = Ppu.ppuRead s s.vram_addr
  ∧ (Ppu.cpuRead s 7).2.vram_addr =
      (s.vram_addr +
        (if Ppu.controlAddressIncrement s.control = 0 then 1 else 32)) % 65536 := by
  exact ⟨rfl, rfl, rfl⟩

/-! ## Sub-chunk parsing lemmas -/

theorem padTag4_length (d : List Nat) : (padTag4 d).length = 4 := by
  simp [padTag4]
  omega

theorem exists_four (l : List Nat) (h : l.length = 4) : ∃ a b c d, l = [a, b, c, d] := by
  rcases l with _ | ⟨a, _ | ⟨b, _ | ⟨c, _ | ⟨d, _ | ⟨e, tl⟩⟩⟩⟩⟩ <;> simp_all

theorem subchunkNew_nil : subchunkNew [] = .ok [] := by
  rw [subchunkNew]
  rfl

/-- One step of `Subchunk::new` over a well-formed serialized section. -/
theorem subchunkNew_cons (value description rest : List Nat)
    (hv : value.length < 4294967296)
    (hutf : isValidUtf8 (padTag4 description) = true) :
    subchunkNew (serialize value description ++ rest)
      = match subchunkNew rest with
        | .ok sections =>
            .ok ((trimTrailingZeros (padTag4 description), value) :: sections)
        | .error e => .error e := by
  obtain ⟨a, b, c, d, hd_eq⟩ := exists_four (padTag4 description) (padTag4_length description)
  have hser : serialize value description ++ rest
      = a :: b :: c :: d :: (value.length % 256) :: (value.length / 256 % 256) ::
        (value.length / 65536 % 256) :: (value.length / 16777216 % 256) :: (value ++ rest) := by
    simp [serialize, hd_eq, u32ToLe]
  rw [hser, subchunkNew]
  have hsize : value.length % 256 + 256 * (value.length / 256 % 256 + 256 *
      (value.length / 65536 % 256 + 256 * (value.length / 16777216 % 256 + 256 * 0)))
      = value.length := by omega
  simp only [List.isEmpty_cons, List.length_cons, List.take_succ_cons, List.drop_succ_cons,
    List.take_zero, List.drop_zero, leToNat, hsize, Bool.false_eq_true, if_false]
  have h8 : ¬ ((value ++ rest).length + 1 + 1 + 1 + 1 + 1 + 1 + 1 + 1 < 8) := by omega
  have hlen : ¬ ((value ++ rest).length < value.length) := by simp
  simp only [h8, hlen, dif_neg, if_neg, not_false_iff]
  rw [List.take_left, List.drop_left, ← hd_eq]
  simp [hutf]

/-! ## Mapper4 apply-state step lemmas -/

theorem applyState_regs (m : Mapper4) (sec : List Nat) (rest : List (List Nat × List Nat)) :
    mapper4ApplyState m ((tagREGS, sec) :: rest)
      = mapper4ApplyState
          { m with bank_register := if sec.length = 8 then sec else List.replicate 8 0 }
          rest := by
  simp [mapper4ApplyState, tagREGS]

theorem applyState_cmd (m : Mapper4) (sec : List Nat) (rest : List (List Nat × List Nat)) :
    mapper4ApplyState m ((tagCMD, sec) :: rest)
      = mapper4ApplyState
          { m with bank_select := if sec.length = 1 then leToNat sec else 0 } rest := by
  simp [mapper4ApplyState, tagCMD, tagREGS]

theorem applyState_a000 (m : Mapper4) (sec : List Nat) (rest : List (List Nat × List Nat)) :
    mapper4ApplyState m ((tagA000, sec) :: rest)
      = mapper4ApplyState
          { m with mirroring :=
              if (if sec.length = 1 then leToNat sec else 0) = 0
              then Mirroring.Vertical else Mirroring.Horizontal } rest := by
  simp [mapper4ApplyState, tagA000, tagCMD, tagREGS]

theorem applyState_a001 (m : Mapper4) (sec : List Nat) (rest : List (List Nat × List Nat)) :
    mapper4ApplyState m ((tagA001, sec) :: rest)
      = mapper4ApplyState
          { m with prg_ram_protect := if sec.length = 1 then leToNat sec else 0 } rest := by
  simp [mapper4ApplyState, tagA001, tagA000, tagCMD, tagREGS]

theorem applyState_irqr (m : Mapper4) (sec : List Nat) (rest : List (List Nat × List Nat)) :
    mapper4ApplyState m ((tagIRQR, sec) :: rest)
      = mapper4ApplyState
          { m with irq_reload :=
              if sec.length = 1 then (leToNat sec ≠ 0 : Bool) else false } rest := by
  simp [mapper4ApplyState, tagIRQR, tagA001, tagA000, tagCMD, tagREGS]

theorem applyState_irqc (m : Mapper4) (sec : List Nat) (rest : List (List Nat × List Nat)) :
    mapper4ApplyState m ((tagIRQC, sec) :: rest)
      = mapper4ApplyState
          { m with irq_counter := if sec.length = 1 then leToNat sec else 0 } rest := by
  simp [mapper4ApplyState, tagIRQC, tagIRQR, tagA001, tagA000, tagCMD, tagREGS]

theorem applyState_irql (m : Mapper4) (sec : List Nat) (rest : List (List Nat × List Nat)) :
    mapper4ApplyState m ((tagIRQL, sec) :: rest)
      = mapper4ApplyState
          { m with irq_latch := if sec.length = 1 then leToNat sec else 0 } rest := by
  simp [mapper4ApplyState, tagIRQL, tagIRQC, tagIRQR, tagA001, tagA000, tagCMD, tagREGS]

theorem applyState_irqa (m : Mapper4) (sec : List Nat) (rest : List (List Nat × List Nat)) :
    mapper4ApplyState m ((tagIRQA, sec) :: rest)
      = mapper4ApplyState
          { m with is_irq_enabled :=
              if sec.length = 1 then (leToNat sec ≠ 0 : Bool) else false } rest := by
  simp [mapper4ApplyState, tagIRQA, tagIRQL, tagIRQC, tagIRQR, tagA001, tagA000, tagCMD,
    tagREGS]

theorem applyState_wram (m : Mapper4) (sec : List Nat) (rest : List (List Nat × List Nat)) :
    mapper4ApplyState m ((tagWRAM, sec) :: rest)
      = mapper4ApplyState
          (if sec.length = m.prg_ram.length then { m with prg_ram := sec } else m) rest := by
  simp [mapper4ApplyState, tagWRAM, tagIRQA, tagIRQL, tagIRQC, tagIRQR, tagA001, tagA000,
    tagCMD, tagREGS]

theorem applyState_chrr (m : Mapper4) (sec : List Nat) (rest : List (List Nat × List Nat)) :
    mapper4ApplyState m ((tagCHRR, sec) :: rest)
      = mapper4ApplyState
          (if m.has_chr_ram then
            if sec.length = m.chr_rom.length then { m with chr_rom := sec } else m
          else m) rest := by
  simp [mapper4ApplyState, tagCHRR, tagWRAM, tagIRQA, tagIRQL, tagIRQC, tagIRQR, tagA001,
    tagA000, tagCMD, tagREGS]

/-- `Subchunk::new` on a single serialized section. -/
theorem subchunkNew_single (value description : List Nat)
    (hv : value.length < 4294967296)
    (hutf : isValidUtf8 (padTag4 description) = true) :
    subchunkNew (serialize value description)
      = .ok [(trimTrailingZeros (padTag4 description), value)] := by
  have h := subchunkNew_cons value description [] hv hutf
  rw [List.append_nil] at h
  rw [h, subchunkNew_nil]

/-- `Mapper4::apply_state` on the nine register sections emitted by
`save_state` (everything except the leading optional CHR-RAM section) restores
each register value from its section, on top of any starting state. -/
theorem applyState_core (mx : Mapper4) (regs prg : List Nat)
    (bs mir prot cnt latch : Nat) (rel ena : Bool) (hreg : regs.length = 8) :
    (mapper4ApplyState mx [(tagWRAM, prg), (tagREGS, regs), (tagCMD, [bs]),
        (tagA000, [mir]), (tagA001, [prot]), (tagIRQR, [boolByte rel]),
        (tagIRQC, [cnt]), (tagIRQL, [latch]),
        (tagIRQA, [boolByte ena])]).bank_register = regs
  ∧ (mapper4ApplyState mx [(tagWRAM, prg), (tagREGS, regs), (tagCMD, [bs]),
        (tagA000, [mir]), (tagA001, [prot]), (tagIRQR, [boolByte rel]),
        (tagIRQC, [cnt]), (tagIRQL, [latch]),
        (tagIRQA, [boolByte ena])]).bank_select = bs
  ∧ (mapper4ApplyState mx [(tagWRAM, prg), (tagREGS, regs), (tagCMD, [bs]),
        (tagA000, [mir]), (tagA001, [prot]), (tagIRQR, [boolByte rel]),
        (tagIRQC, [cnt]), (tagIRQL, [latch]),
        (tagIRQA, [boolByte ena])]).irq_latch = latch
  ∧ (mapper4ApplyState mx [(tagWRAM, prg), (tagREGS, regs), (tagCMD, [bs]),
        (tagA000, [mir]), (tagA001, [prot]), (tagIRQR, [boolByte rel]),
        (tagIRQC, [cnt]), (tagIRQL, [latch]),
        (tagIRQA, [boolByte ena])]).irq_counter = cnt
  ∧ (mapper4ApplyState mx [(tagWRAM, prg), (tagREGS, regs), (tagCMD, [bs]),
        (tagA000, [mir]), (tagA001, [prot]), (tagIRQR, [boolByte rel]),
        (tagIRQC, [cnt]), (tagIRQL, [latch]),
        (tagIRQA, [boolByte ena])]).irq_reload = rel
  ∧ (mapper4ApplyState mx [(tagWRAM, prg), (tagREGS, regs), (tagCMD, [bs]),
        (tagA000, [mir]), (tagA001, [prot]), (tagIRQR, [boolByte rel]),
        (tagIRQC, [cnt]), (tagIRQL, [latch]),
        (tagIRQA, [boolByte ena])]).is_irq_enabled = ena
  ∧ (mapper4ApplyState mx [(tagWRAM, prg), (tagREGS, regs), (tagCMD, [bs]),
        (tagA000, [mir]), (tagA001, [prot]), (tagIRQR, [boolByte rel]),
        (tagIRQC, [cnt]), (tagIRQL, [latch]),
        (tagIRQA, [boolByte ena])]).prg_ram_protect = prot
  ∧ (mapper4ApplyState mx [(tagWRAM, prg), (tagREGS, regs), (tagCMD, [bs]),
        (tagA000, [mir]), (tagA001, [prot]), (tagIRQR, [boolByte rel]),
        (tagIRQC, [cnt]), (tagIRQL, [latch]),
        (tagIRQA, [boolByte ena])]).mirroring
      = (if mir = 0 then Mirroring.Vertical else Mirroring.Horizontal) := by
  rw [applyState_wram, applyState_regs, applyState_cmd, applyState_a000, applyState_a001,
    applyState_irqr, applyState_irqc, applyState_irql, applyState_irqa]
  simp only [mapper4ApplyState]
  refine ⟨by simp [hreg], by simp [leToNat], by simp [leToNat], by simp [leToNat],
    by cases rel <;> simp [leToNat, boolByte], by cases ena <;> simp [leToNat, boolByte],
    by simp [leToNat], by simp [leToNat]⟩

/-! ## C8 — savestate parsing aborts on a section-size mismatch -/

/-- **C8.**  The claim states that savestate parsing always either succeeds or
returns a recoverable error, including for size mismatches.  On
`badSavestate` — a well-formed 16-byte `FCS` header declaring a 5-byte
uncompressed body whose single section header declares the out-of-range
section size `0xFFFFFFFF` — `Savestate::new` panics: its section loop slices
`rest.split_at(section_size)` without a bounds check.  (A mid-stream truncated
section header panics the same way at `bytes.split_at(5)`.)  This contradicts
the function's own documentation, which promises an error for malformed
files. -/
theorem savestate_new_panics_on_size_mismatch :
    savestateNew badSavestate = PResult.panicked := by
  have hbad : badSavestate
      = [0x46, 0x43, 0x53, 0x00, 5, 0, 0, 0, 0, 0, 0, 0, 0xFF, 0xFF, 0xFF, 0xFF,
         0x00, 0xFF, 0xFF, 0xFF, 0xFF] := by decide
  rw [hbad, savestateNew]
  norm_num [tagFCS, headerNew, leToNat]
  rw [sectionLoop]
  norm_num [leToNat]

/-! ## C9 — Mapper4 savestate round trip -/

/-- **C9.**  For every Mapper4 state `m` (with its `[u8; 8]` bank-register
array of length 8, RAM buffers addressable by a `u32` length, and the
mirroring mode Mapper4 actually uses: vertical or horizontal), serializing
with `Mapper4::save_state`, parsing the bytes back through `Subchunk::new` and
applying them with `Mapper4::apply_state` on top of any starting state `m0`
succeeds and restores bit-identical values of all eight bank registers, the
bank-select register, the IRQ latch, counter, reload and enable fields, the
PRG-RAM protect byte, and the mirroring mode. -/
theorem mapper4_save_apply_roundtrip (m0 m : Mapper4)
    (hmir : m.mirroring = Mirroring.Vertical ∨ m.mirroring = Mirroring.Horizontal)
    (hreg : m.bank_register.length = 8)
    (hwram : m.prg_ram.length < 4294967296)
    (hchr : m.chr_rom.length < 4294967296) :
    (mapper4Roundtrip m0 m).map Mapper4.bank_register = some m.bank_register
  ∧ (mapper4Roundtrip m0 m).map Mapper4.bank_select = some m.bank_select
  ∧ (mapper4Roundtrip m0 m).map Mapper4.irq_latch = some m.irq_latch
  ∧ (mapper4Roundtrip m0 m).map Mapper4.irq_counter = some m.irq_counter
  ∧ (mapper4Roundtrip m0 m).map Mapper4.irq_reload = some m.irq_reload
  ∧ (mapper4Roundtrip m0 m).map Mapper4.is_irq_enabled = some m.is_irq_enabled
  ∧ (mapper4Roundtrip m0 m).map Mapper4.prg_ram_protect = some m.prg_ram_protect
  ∧ (mapper4Roundtrip m0 m).map Mapper4.mirroring = some m.mirroring := by
  have hb : ∀ x : Nat, ([x] : List Nat).length < 4294967296 := fun x => by simp
  have hr32 : m.bank_register.length < 4294967296 := by omega
  have htW : trimTrailingZeros (padTag4 tagWRAM) = tagWRAM := by decide
  have htR : trimTrailingZeros (padTag4 tagREGS) = tagREGS := by decide
  have htCM : trimTrailingZeros (padTag4 tagCMD) = tagCMD := by decide
  have htA0 : trimTrailingZeros (padTag4 tagA000) = tagA000 := by decide
  have htA1 : trimTrailingZeros (padTag4 tagA001) = tagA001 := by decide
  have htIR : trimTrailingZeros (padTag4 tagIRQR) = tagIRQR := by decide
  have htIC : trimTrailingZeros (padTag4 tagIRQC) = tagIRQC := by decide
  have htIL : trimTrailingZeros (padTag4 tagIRQL) = tagIRQL := by decide
  have htIA : trimTrailingZeros (padTag4 tagIRQA) = tagIRQA := by decide
  have htCH : trimTrailingZeros (padTag4 tagCHRR) = tagCHRR := by decide
  rcases hmir with hm | hm <;> cases hc : m.has_chr_ram
  · simp only [mapper4Roundtrip, mapper4SaveState, mirroringByte, hm, hc,
      Bool.false_eq_true, if_false, List.nil_append, List.append_assoc]
    rw [subchunkNew_cons m.prg_ram tagWRAM _ hwram (by decide),
      subchunkNew_cons m.bank_register tagREGS _ hr32 (by decide),
      subchunkNew_cons [m.bank_select] tagCMD _ (hb _) (by decide),
      subchunkNew_cons [0] tagA000 _ (hb _) (by decide),
      subchunkNew_cons [m.prg_ram_protect] tagA001 _ (hb _) (by decide),
      subchunkNew_cons [boolByte m.irq_reload] tagIRQR _ (hb _) (by decide),
      subchunkNew_cons [m.irq_counter] tagIRQC _ (hb _) (by decide),
      subchunkNew_cons [m.irq_latch] tagIRQL _ (hb _) (by decide),
      subchunkNew_single [boolByte m.is_irq_enabled] tagIRQA (hb _) (by decide)]
    simp only [htW, htR, htCM, htA0, htA1, htIR, htIC, htIL, htIA, Option.map_some']
    obtain ⟨h1, h2, h3, h4, h5, h6, h7, h8⟩ :=
      applyState_core m0 m.bank_register m.prg_ram m.bank_select 0 m.prg_ram_protect
        m.irq_counter m.irq_latch m.irq_reload m.is_irq_enabled hreg
    refine ⟨by rw [h1], by rw [h2], by rw [h3], by rw [h4], by rw [h5], by rw [h6],
      by rw [h7], by rw [h8]; simp [hm]⟩
  · simp only [mapper4Roundtrip, mapper4SaveState, mirroringByte, hm, hc, if_true,
      List.nil_append, List.append_assoc]
    rw [subchunkNew_cons m.chr_rom tagCHRR _ hchr (by decide),
      subchunkNew_cons m.prg_ram tagWRAM _ hwram (by decide),
      subchunkNew_cons m.bank_register tagREGS _ hr32 (by decide),
      subchunkNew_cons [m.bank_select] tagCMD _ (hb _) (by decide),
      subchunkNew_cons [0] tagA000 _ (hb _) (by decide),
      subchunkNew_cons [m.prg_ram_protect] tagA001 _ (hb _) (by decide),
      subchunkNew_cons [boolByte m.irq_reload] tagIRQR _ (hb _) (by decide),
      subchunkNew_cons [m.irq_counter] tagIRQC _ (hb _) (by decide),
      subchunkNew_cons [m.irq_latch] tagIRQL _ (hb _) (by decide),
      subchunkNew_single [boolByte m.is_irq_enabled] tagIRQA (hb _) (by decide)]
    simp only [htCH, htW, htR, htCM, htA0, htA1, htIR, htIC, htIL, htIA, Option.map_some']
    rw [applyState_chrr]
    obtain ⟨h1, h2, h3, h4, h5, h6, h7, h8⟩ :=
      applyState_core
        (if m0.has_chr_ram then
          if m.chr_rom.length = m0.chr_rom.length then { m0 with chr_rom := m.chr_rom }
          else m0
        else m0)
        m.bank_register m.prg_ram m.bank_select 0 m.prg_ram_protect
        m.irq_counter m.irq_latch m.irq_reload m.is_irq_enabled hreg
    refine ⟨by rw [h1], by rw [h2], by rw [h3], by rw [h4], by rw [h5], by rw [h6],
      by rw [h7], by rw [h8]; simp [hm]⟩
  · simp only [mapper4Roundtrip, mapper4SaveState, mirroringByte, hm, hc,
      Bool.false_eq_true, if_false, List.nil_append, List.append_assoc]
    rw [subchunkNew_cons m.prg_ram tagWRAM _ hwram (by decide),
      subchunkNew_cons m.bank_register tagREGS _ hr32 (by decide),
      subchunkNew_cons [m.bank_select] tagCMD _ (hb _) (by decide),
      subchunkNew_cons [1] tagA000 _ (hb _) (by decide),
      subchunkNew_cons [m.prg_ram_protect] tagA001 _ (hb _) (by decide),
      subchunkNew_cons [boolByte m.irq_reload] tagIRQR _ (hb _) (by decide),
      subchunkNew_cons [m.irq_counter] tagIRQC _ (hb _) (by decide),
      subchunkNew_cons [m.irq_latch] tagIRQL _ (hb _) (by decide),
      subchunkNew_single [boolByte m.is_irq_enabled] tagIRQA (hb _) (by decide)]
    simp only [htW, htR, htCM, htA0, htA1, htIR, htIC, htIL, htIA, Option.map_some']
    obtain ⟨h1, h2, h3, h4, h5, h6, h7, h8⟩ :=
      applyState_core m0 m.bank_register m.prg_ram m.bank_select 1 m.prg_ram_protect
        m.irq_counter m.irq_latch m.irq_reload m.is_irq_enabled hreg
    refine ⟨by rw [h1], by rw [h2], by rw [h3], by rw [h4], by rw [h5], by rw [h6],
      by rw [h7], by rw [h8]; simp [hm]⟩
  · simp only [mapper4Roundtrip, mapper4SaveState, mirroringByte, hm, hc, if_true,
      List.nil_append, List.append_assoc]
    rw [subchunkNew_cons m.chr_rom tagCHRR _ hchr (by decide),
      subchunkNew_cons m.prg_ram tagWRAM _ hwram (by decide),
      subchunkNew_cons m.bank_register tagREGS _ hr32 (by decide),
      subchunkNew_cons [m.bank_select] tagCMD _ (hb _) (by decide),
      subchunkNew_cons [1] tagA000 _ (hb _) (by decide),
      subchunkNew_cons [m.prg_ram_protect] tagA001 _ (hb _) (by decide),
      subchunkNew_cons [boolByte m.irq_reload] tagIRQR _ (hb _) (by decide),
      subchunkNew_cons [m.irq_counter] tagIRQC _ (hb _) (by decide),
      subchunkNew_cons [m.irq_latch] tagIRQL _ (hb _) (by decide),
      subchunkNew_single [boolByte m.is_irq_enabled] tagIRQA (hb _) (by decide)]
    simp only [htCH, htW, htR, htCM, htA0, htA1, htIR, htIC, htIL, htIA, Option.map_some']
    rw [applyState_chrr]
    obtain ⟨h1, h2, h3, h4, h5, h6, h7, h8⟩ :=
      applyState_core
        (if m0.has_chr_ram then
          if m.chr_rom.length = m0.chr_rom.length then { m0 with chr_rom := m.chr_rom }
          else m0
        else m0)
        m.bank_register m.prg_ram m.bank_select 1 m.prg_ram_protect
        m.irq_counter m.irq_latch m.irq_reload m.is_irq_enabled hreg
    refine ⟨by rw [h1], by rw [h2], by rw [h3], by rw [h4], by rw [h5], by rw [h6],
      by rw [h7], by rw [h8]; simp [hm]⟩

/-- **C9, witness.**  The round trip at a concrete sample mapper state applied
onto a blank mapper. -/
theorem mapper4_save_apply_roundtrip_witness :
    mapper4Sample.bank_register.length = 8
  ∧ (mapper4Roundtrip mapper4Blank mapper4Sample).map Mapper4.bank_register
      = some mapper4Sample.bank_register := by
  refine ⟨by decide, ?_⟩
  exact (mapper4_save_apply_roundtrip mapper4Blank mapper4Sample
    (Or.inr (by decide)) (by decide) (by decide) (by decide)).1

end Nes
